import Mathlib

/-!
Verification development for the Seismic OBN NAV QC pipeline.

This file gives a shallow embedding, in Lean 4, of the core QC pipeline of
the repository: the shot-point merge step of `PXGEONavQCTools._qc_worker_function`,
the missing-shot-point scans (`PXGEONavQCTools.check_sp` and
`QCValidator.check_missing_shot_points`), range compaction
(`LineLogManager.detect_range`), production-range filtering of log entries
(`LineLogManager._filter_log_data_by_range`), the QC validator rules
(`QCValidator.validate_data` and the per-rule functions), the misfire /
disabled-gun log scan of `QCValidator.generate_line_log_report`, percentage
aggregation (`QCReportGenerator.calculate_percentages`) and the shot-point
order scan (`QCReportGenerator.detect_sp_sorting`).

Python strings are modelled as `List Char` (so that all operations reduce in
the kernel); pandas numeric cells are modelled as `Option ℚ` where `none`
plays the role of NaN/null (pandas `fillna(0)` becomes `Option.getD 0`, and
a comparison such as `df[c] < x` is false on NaN, while `df[c] != 63` is
true on NaN, exactly as in pandas).  Machine floats are modelled as exact
rationals: every operation the embedded code performs on them (comparison,
negation, absolute value, sums and means) is exact at the magnitudes involved.
-/

/-! ## Small Python-string helpers over `List Char` -/

/-- Decimal digits of a natural number, as characters (Python `str(n)` for `n ≥ 0`). -/
def natToChars (n : Nat) : List Char := Nat.toDigits 10 n

/-- Python `str` of an integer. -/
def intToChars (n : Int) : List Char :=
  if n < 0 then '-' :: natToChars (-n).toNat else natToChars n.toNat

/-- Python `sorted(...)` on a list of integers. -/
def sortSP (l : List Int) : List Int := List.insertionSort (fun a b => a ≤ b) l

/-- Python `pat in s` (substring containment). -/
def containsL (pat : List Char) : List Char → Bool
  | [] => pat.isEmpty
  | c :: rest => List.isPrefixOf pat (c :: rest) || containsL pat rest

/-- Python `s.split(sep)` for a one-character separator `sep`. -/
def splitOnCharL (sep : Char) (s : List Char) : List (List Char) :=
  s.foldr
    (fun c acc =>
      if c = sep then [] :: acc
      else
        match acc with
        | g :: t => (c :: g) :: t
        | [] => [[c]])
    [[]]

/-- Split at every character satisfying `p`, keeping empty groups. -/
def splitWhenL (p : Char → Bool) (s : List Char) : List (List Char) :=
  s.foldr
    (fun c acc =>
      if p c then [] :: acc
      else
        match acc with
        | g :: t => (c :: g) :: t
        | [] => [[c]])
    [[]]

/-- Python `s.split()` with no argument: split on whitespace runs, dropping empties. -/
def pySplitWs (s : List Char) : List (List Char) :=
  (splitWhenL Char.isWhitespace s).filter (fun g => !g.isEmpty)

/-- Python `s.strip()`. -/
def trimL (s : List Char) : List Char :=
  ((s.dropWhile Char.isWhitespace).reverse.dropWhile Char.isWhitespace).reverse

/-- The prefix of `s` strictly before the first occurrence of `pat`
(all of `s` when `pat` does not occur): Python `s.split(pat)[0]`. -/
def beforeFirstL (pat : List Char) : List Char → List Char
  | [] => []
  | c :: rest =>
    if List.isPrefixOf pat (c :: rest) then [] else c :: beforeFirstL pat rest

/-- Value of a non-empty all-digit character list. -/
def digitsVal (ds : List Char) : Option Nat :=
  if !ds.isEmpty && ds.all Char.isDigit then
    some (ds.foldl (fun n c => 10 * n + (c.toNat - '0'.toNat)) 0)
  else none

/-- Python `int(s)` on a string, returning `none` where Python raises `ValueError`:
surrounding whitespace is stripped and an optional sign is allowed. -/
def pyInt? (s : List Char) : Option Int :=
  match trimL s with
  | '-' :: rest => (digitsVal rest).map (fun n => -(n : Int))
  | '+' :: rest => (digitsVal rest).map (fun n => (n : Int))
  | t => (digitsVal t).map (fun n => (n : Int))

/-- Python `sep.join(parts)`. -/
def joinWith (sep : List Char) : List (List Char) → List Char
  | [] => []
  | [x] => x
  | x :: xs => x ++ sep ++ joinWith sep xs

/-! ## C1 — the merge step of `_qc_worker_function` (PXGEONavQCTools.py:694-721)

A table row is a `shot_point` key together with payload cells.  The worker
normalises every `shot_point` on both sides to a zero-padded decimal string
before each `pd.merge(..., on='shot_point', how='left', suffixes=('', s))`;
that normalisation is injective on integer shot points (equal numbers give
equal zero-filled strings and distinct numbers give distinct ones), so the
join is modelled directly on the integer key.  A cell is `Option ℚ` (`none`
is pandas NaN). -/

abbrev Cell := Option ℚ

/-- A secondary source frame: whether it has a `shot_point` column, how many
payload columns it contributes, and its rows. -/
structure SecTable where
  hasSP : Bool
  cols : Nat
  rows : List (Int × List Cell)

/-- One `pd.merge(merged_df, df, on='shot_point', how='left')`: every base row
is kept; a base row with no key match in `sec` gets `secCols` null cells, and a
base row with matches is repeated once per matching secondary row (pandas
left-join semantics).  Secondary rows whose key matches no base row are dropped. -/
def leftMergeOn (base : List (Int × List Cell)) (secCols : Nat)
    (sec : List (Int × List Cell)) : List (Int × List Cell) :=
  base.flatMap fun b =>
    if (sec.filter (fun p => p.1 == b.1)).isEmpty then
      [(b.1, b.2 ++ List.replicate secCols none)]
    else (sec.filter (fun p => p.1 == b.1)).map fun p => (b.1, b.2 ++ p.2)

/-- The worker's merge loop over `merge_dfs = [('comp', ...), ('eol', ...), ('asc', ...), ('sbs', ...)]`:
a secondary is merged only `if not df.empty and 'shot_point' in df.columns`. -/
def workerMergeAll (base : List (Int × List Cell)) (secs : List SecTable) :
    List (Int × List Cell) :=
  secs.foldl
    (fun acc s =>
      if s.rows.isEmpty || !s.hasSP then acc else leftMergeOn acc s.cols s.rows)
    base

/-! ## C3 — missing shot-point detection

`PXGEONavQCTools.check_sp` (lines 1022-1056) sorts the shot points and, for
each adjacent pair with `abs(diff) > 2`, appends `list(range(current+2, next_, 2))`
(or the descending variant).  `QCValidator.check_missing_shot_points`
(qc_validator.py:539-568) instead appends every integer in `range(current+1, next_)`
whenever `next_ - current > 1`. -/

/-- `range2ascAux a n` is Python `list(range(a, b, 2))` where `n` is the
element count `max 0 (ceil((b-a)/2))`. -/
def range2ascAux (a : Int) : Nat → List Int
  | 0 => []
  | n + 1 => a :: range2ascAux (a + 2) n

/-- Python `list(range(a, b, 2))`. -/
def range2asc (a b : Int) : List Int := range2ascAux a ((b - a + 1) / 2).toNat

/-- `range2descAux a n` is Python `list(range(a, b, -2))` where `n` is the
element count. -/
def range2descAux (a : Int) : Nat → List Int
  | 0 => []
  | n + 1 => a :: range2descAux (a - 2) n

/-- Python `list(range(a, b, -2))`. -/
def range2desc (a b : Int) : List Int := range2descAux a ((a - b + 1) / 2).toNat

/-- `range1ascAux a n` is Python `list(range(a, b))` where `n` is the element count. -/
def range1ascAux (a : Int) : Nat → List Int
  | 0 => []
  | n + 1 => a :: range1ascAux (a + 1) n

/-- Python `list(range(a, b))`. -/
def range1asc (a b : Int) : List Int := range1ascAux a (b - a).toNat

/-- The contribution of one adjacent sorted pair in `check_sp`: with
`diff = next_ - current`, nothing unless `abs(diff) > 2`, otherwise the
2-step enumeration strictly between the two (ascending or descending). -/
def pairContrib (cur nxt : Int) : List Int :=
  let d := nxt - cur
  if d.natAbs > 2 then
    if d > 0 then range2asc (cur + 2) nxt else range2desc (cur - 2) nxt
  else []

/-- `PXGEONavQCTools.check_sp`: sort the shot points, then concatenate the
per-adjacent-pair contributions in order. -/
def check_sp (shotPoints : List Int) : List Int :=
  let s := sortSP shotPoints
  (s.zip s.tail).flatMap fun p => pairContrib p.1 p.2

/-- `QCValidator.check_missing_shot_points`: `[]` when the frame has no
`shot_point` column; otherwise sort and, for each adjacent pair with a gap
greater than 1, enumerate every integer strictly between. -/
def check_missing_shot_points (hasSpCol : Bool) (shotPoints : List Int) : List Int :=
  if !hasSpCol then []
  else
    let s := sortSP shotPoints
    (s.zip s.tail).flatMap fun p =>
      if p.2 - p.1 > 1 then range1asc (p.1 + 1) p.2 else []

/-! ## C4 / C9 — `LineLogManager.detect_range` (line_log_manager.py:713-760)

The function returns `""` on an empty input; otherwise it sorts the points,
greedily extends the current inclusive range while the next sorted point
equals `end + 2`, renders a single-point range as the bare number and a
multi-point range as `"start-end"`, and returns
`f"Total {len(sorted_points)} SP. {', '.join(ranges)}"`. -/

/-- Rendering of one closed range in `detect_range`. -/
def renderRange (s e : Int) : List Char :=
  if s = e then intToChars s else intToChars s ++ '-' :: intToChars e

/-- The main loop of `detect_range` over the tail of the sorted list, carrying
the current range `[start, e]` and the ranges emitted so far. -/
def detectRangeAux (start e : Int) (acc : List (List Char)) : List Int → List (List Char)
  | [] => acc ++ [renderRange start e]
  | c :: rest =>
    if c = e + 2 then detectRangeAux start c acc rest
    else detectRangeAux c c (acc ++ [renderRange start e]) rest

/-- Everything `detect_range` computes from the sorted list (total count
included: the source takes `total_count = len(sorted_points)`). -/
def detectRangeSorted : List Int → List Char
  | [] => []
  | s0 :: rest =>
    "Total ".data ++ natToChars (s0 :: rest).length ++ " SP. ".data ++
      joinWith ", ".data (detectRangeAux s0 s0 [] rest)

/-- `LineLogManager.detect_range`. -/
def detect_range (shot_points : List Int) : List Char :=
  if shot_points.isEmpty then [] else detectRangeSorted (sortSP shot_points)

/-! ## C5 — `LineLogManager._filter_log_data_by_range` (line_log_manager.py:179-271)

A `LogEntry` value is one of: a free-text string, a plain list of shot
points, a list of `(shot_point, gun strings)` pairs, or a list of
range strings.  The Python dispatch order is: falsy values are skipped;
strings are kept as-is; lists whose first element is a tuple are filtered on
the shot point; values under one of four special keys take the range-string
branch; any remaining list is filtered as a plain shot-point list. -/

inductive LogValue where
  | text (s : List Char)
  | spList (l : List Int)
  | tupList (l : List (Int × List (List Char)))
  | rangeList (l : List (List Char))
deriving DecidableEq

/-- The four keys whose values take the range-string parsing branch. -/
def specialKeys : List (List Char) :=
  ["log_consec_7_source_errors".data, "log_window_12_of_24_source_errors".data,
   "log_window_16_of_40_source_errors".data, "log_gun_depth_sensor_violation".data]

/-- Python truthiness of a `LogEntry` value (`if not value: continue`). -/
def isFalsyLV : LogValue → Bool
  | .text s => s.isEmpty
  | .spList l => l.isEmpty
  | .tupList l => l.isEmpty
  | .rangeList l => l.isEmpty

/-- The per-item body of the range-string branch: an item containing `'-'`
and splitting into exactly two parts is parsed (`int` of the last
whitespace token of the left part and of the first token of the right
part); a parsed range overlapping `[min_sp, max_sp]` is clipped and
re-emitted behind its original prefix, a non-overlapping one is discarded,
and a parse failure (Python `ValueError`/`IndexError`) keeps the item as-is.
An item without `'-'` is treated as a single shot point when `int(...)`
succeeds (kept iff in range) and kept as-is otherwise. -/
def rangeItemFilter (min_sp max_sp : Int) (item : List Char) : List (List Char) :=
  match splitOnCharL '-' item with
  | [_] =>
    match pyInt? item with
    | some sp => if min_sp ≤ sp ∧ sp ≤ max_sp then [item] else []
    | none => [item]
  | [p0, p1] =>
    match (pySplitWs (trimL p0)).getLast?, (pySplitWs (trimL p1)).head? with
    | some a, some b =>
      match pyInt? a, pyInt? b with
      | some rs, some re2 =>
        if re2 ≥ min_sp ∧ rs ≤ max_sp then
          let ts := max rs min_sp
          let te := min re2 max_sp
          let pfx := if containsL (intToChars rs) item then beforeFirstL (intToChars rs) item else []
          [pfx ++ intToChars ts ++ '-' :: intToChars te]
        else []
      | _, _ => [item]
    | _, _ => [item]
  | _ => [item]

/-- One key/value entry of the filtering loop; `none` means the key is
dropped from the output mapping.  A plain shot-point list under a special
key goes through the range-string branch item by item: `str(sp)` of a
non-negative shot point contains no `'-'` and `int(str(sp)) = sp`, so it is
kept iff in range, while a negative one splits as `['', digits]` and then
fails with `IndexError` on `''.split()[-1]`, so it is kept as-is. -/
def filterLogEntry (min_sp max_sp : Int) (kv : List Char × LogValue) :
    Option (List Char × LogValue) :=
  if isFalsyLV kv.2 then none
  else
    match kv.2 with
    | .text s => some (kv.1, .text s)
    | .tupList l =>
      let fl := l.filter (fun p => min_sp ≤ p.1 ∧ p.1 ≤ max_sp)
      if fl.isEmpty then none else some (kv.1, .tupList fl)
    | .spList l =>
      if kv.1 ∈ specialKeys then
        let fl := l.filter (fun sp => if sp < 0 then true else min_sp ≤ sp ∧ sp ≤ max_sp)
        if fl.isEmpty then none else some (kv.1, .spList fl)
      else
        let fl := l.filter (fun sp => min_sp ≤ sp ∧ sp ≤ max_sp)
        if fl.isEmpty then none else some (kv.1, .spList fl)
    | .rangeList l =>
      if kv.1 ∈ specialKeys then
        let fl := l.flatMap (rangeItemFilter min_sp max_sp)
        if fl.isEmpty then none else some (kv.1, .rangeList fl)
      else
        -- With a range-string list under a non-special key the Python loop
        -- would raise TypeError (str-vs-int comparison); the producer stores
        -- range strings only under the four special keys, so this branch is
        -- unreachable and is modelled as keep-as-is.
        some (kv.1, .rangeList l)

/-- `LineLogManager._filter_log_data_by_range`: identity when the mapping is
falsy or either marker is `None`; otherwise each entry is filtered against
`[min(fgsp, lgsp), max(fgsp, lgsp)]`. -/
def filter_log_data_by_range (log_data : List (List Char × LogValue))
    (fgsp lgsp : Option Int) : List (List Char × LogValue) :=
  match fgsp, lgsp with
  | some f, some g =>
    if log_data.isEmpty then log_data
    else log_data.filterMap (filterLogEntry (min f g) (max f g))
  | _, _ => log_data

/-! ## C2 — `QCReportGenerator.calculate_percentages` (qc_report_generator.py:997-1095)

The function is modelled on frames that carry all nine flag columns (the
state after `validate_data`; a missing flag column would make the trailing
`df[flag_columns]` selection raise).  A flag cell is `Option Int` (`none`
is NaN): pandas `fillna(0) > 0` is `0 < getD 0`, `== 2` is false on NaN,
and `.sum()` skips NaN. -/

inductive PFlag where
  | sti | subArraySep | cosSep | volume | gunDepth | gunPressure | gunTiming
  | repeatability | sma
deriving DecidableEq

/-- The `flag_columns` list of `calculate_percentages`, in source order. -/
def pflagColumns : List PFlag :=
  [.sti, .subArraySep, .cosSep, .volume, .gunDepth, .gunPressure, .gunTiming,
   .repeatability, .sma]

/-- A row as seen by `calculate_percentages`. -/
structure PercRow where
  shot_point : Int
  flag : PFlag → Option Int

/-- The per-flag entry of the returned dictionary. -/
structure FlagStats where
  total : ℚ
  errors : ℚ
  warnings : ℚ
  total_count : Nat
  error_count : Nat
  warning_count : Nat

/-- The `'overall'` entry: its counts sum over the FULL `df`
(`df[flag_columns].sum()` and friends), its percentages divide by
`total_sp * len(flag_columns)`. -/
structure OverallStats where
  total : ℚ
  errors : ℚ
  warnings : ℚ
  total_count : Int
  error_count : Nat
  warning_count : Nat

/-- The dictionary returned by `calculate_percentages`. -/
structure PercResult where
  stats : PFlag → FlagStats
  percent_radial : ℚ
  percent_gd_errors : ℚ
  overall : OverallStats

/-- `QCReportGenerator.calculate_percentages`: when both markers are given,
`production_df` is the restriction to `min(fgsp,lgsp) ≤ shot_point ≤ max(fgsp,lgsp)`
and `total_sp = len(production_df)`; otherwise `production_df = df` and
`total_sp` defaults to `len(df)`.  Per-flag statistics count over
`production_df`; the `'overall'` counts are taken over the unrestricted `df`. -/
def calculate_percentages (df : List PercRow) (total_sp0 : Option Nat)
    (fgsp lgsp : Option Int) : PercResult :=
  let pd : List PercRow × Nat :=
    match fgsp, lgsp with
    | some f, some g =>
      let m := min f g
      let M := max f g
      let p := df.filter (fun r => m ≤ r.shot_point ∧ r.shot_point ≤ M)
      (p, p.length)
    | _, _ => (df, total_sp0.getD df.length)
  let production_df := pd.1
  let total_sp := pd.2
  let stats := fun fl =>
    let flagged : Nat := production_df.countP (fun r => 0 < (r.flag fl).getD 0)
    let errs : Nat := production_df.countP (fun r => r.flag fl = some 2)
    let warns : Nat := production_df.countP (fun r => r.flag fl = some 1)
    { total := (flagged : ℚ) / (total_sp : ℚ) * 100
      errors := (errs : ℚ) / (total_sp : ℚ) * 100
      warnings := (warns : ℚ) / (total_sp : ℚ) * 100
      total_count := flagged
      error_count := errs
      warning_count := warns : FlagStats }
  let total_flags : Int :=
    (pflagColumns.map (fun fl => (df.map (fun r => (r.flag fl).getD 0)).sum)).sum
  let total_errors : Nat :=
    (pflagColumns.map (fun fl => df.countP (fun r => r.flag fl = some 2))).sum
  let total_warnings : Nat :=
    (pflagColumns.map (fun fl => df.countP (fun r => r.flag fl = some 1))).sum
  { stats := stats
    percent_radial := (stats .repeatability).total
    percent_gd_errors := (stats .gunDepth).total
    overall :=
      { total := (total_flags : ℚ) / ((total_sp : ℚ) * pflagColumns.length) * 100
        errors := (total_errors : ℚ) / ((total_sp : ℚ) * pflagColumns.length) * 100
        warnings := (total_warnings : ℚ) / ((total_sp : ℚ) * pflagColumns.length) * 100
        total_count := total_flags
        error_count := total_errors
        warning_count := total_warnings } }

/-- A concrete frame exhibiting the production-filtering behaviour of
`calculate_percentages`: three rows at shot points 1, 3, 5, all flags 0
except `gun_timing_flag = 2` at shot point 5. -/
def exhibitPercRows : List PercRow :=
  [⟨1, fun _ => some 0⟩, ⟨3, fun _ => some 0⟩,
   ⟨5, fun fl => if fl = PFlag.gunTiming then some 2 else some 0⟩]

/-! ## C10 — `QCReportGenerator.detect_sp_sorting` (qc_report_generator.py:48-120)

The frame is modelled by whether it has a `shot_point` column and by that
column's (nullable) values; `len(df)` is the number of rows and
`df['shot_point'].dropna()` is `reduceOption`. -/

/-- The scan loop of `detect_sp_sorting`, carrying the set of shot points
already reported as duplicates. -/
def spScan (asc : Bool) (maxGap : Int) : List Int → List Int → List (List Char)
  | cur :: nxt :: rest, seen =>
    if nxt = cur then
      if cur ∈ seen then spScan asc maxGap (nxt :: rest) seen
      else
        ("Duplicate SP ".data ++ intToChars cur ++ " detected".data) ::
          spScan asc maxGap (nxt :: rest) (seen ++ [cur])
    else if asc then
      if nxt < cur then
        ("SP ".data ++ intToChars nxt ++ " appears after SP ".data ++ intToChars cur ++
            " (should be ascending)".data) :: spScan asc maxGap (nxt :: rest) seen
      else if nxt - cur > maxGap then
        ("Large gap detected: SP ".data ++ intToChars cur ++ " to ".data ++
            intToChars nxt ++ " (gap: ".data ++ intToChars (nxt - cur) ++ ")".data) ::
          spScan asc maxGap (nxt :: rest) seen
      else spScan asc maxGap (nxt :: rest) seen
    else
      if nxt > cur then
        ("SP ".data ++ intToChars nxt ++ " appears after SP ".data ++ intToChars cur ++
            " (should be descending)".data) :: spScan asc maxGap (nxt :: rest) seen
      else if cur - nxt > maxGap then
        ("Large gap detected: SP ".data ++ intToChars cur ++ " to ".data ++
            intToChars nxt ++ " (gap: ".data ++ intToChars (cur - nxt) ++ ")".data) ::
          spScan asc maxGap (nxt :: rest) seen
      else spScan asc maxGap (nxt :: rest) seen
  | _, _ => []

/-- `QCReportGenerator.detect_sp_sorting`: no issues unless the frame has a
`shot_point` column, more than 2 rows and at least 3 non-null shot points;
the expected direction is a majority vote over the first up-to-5 non-zero
deltas, the typical step is the minimum absolute delta, and the allowed gap
is three times that. -/
def detect_sp_sorting (hasSpCol : Bool) (spRows : List (Option Int)) : List (List Char) :=
  if hasSpCol ∧ spRows.length > 2 then
    let shot_points := spRows.reduceOption
    if shot_points.length < 3 then []
    else
      let diffs :=
        (((shot_points.zip shot_points.tail).take (min 5 (shot_points.length - 1))).map
            (fun p => p.2 - p.1)).filter (fun d => d ≠ 0)
      if diffs.isEmpty then []
      else
        let ascending := diffs.countP (fun d => 0 < d) ≥ diffs.countP (fun d => d < 0)
        let absDiffs := (diffs.map Int.natAbs).filter (fun n => n ≠ 0)
        let maxGap : Int :=
          if !absDiffs.isEmpty then ((absDiffs.min?.getD 2 : Nat) : Int) * 3 else 2 * 3
        spScan ascending maxGap shot_points []
  else []

/-! ## C6 / C7 / C8 — `QCValidator` (qc_validator.py)

A frame is a list of column names plus rows; a row holds the `shot_point`,
the (string-valued) `point_code` cell, and the numeric cells indexed by
column name.  `validate_data` first creates the nine flag columns
initialised to 0; they are modelled as a function from the nine flag-column
names (an inductive type) to `Int`, carried next to each row, and each rule
writes its own flag with `Function.update`.  The final `astype(int)` is the
identity here because flags are already integers. -/

/-- The nine flag columns created by `validate_data`. -/
inductive FlagCol where
  | sti_flag | sub_array_sep_flag | cos_sep_flag | volume_flag | gun_depth_flag
  | gun_pressure_flag | gun_timing_flag | repeatability_flag | sma_flag
deriving DecidableEq

/-- The flag columns of one row. -/
def Flags : Type := FlagCol → Int

/-- The `df[col] = 0` initialisation of every flag column. -/
def Flags.zero : Flags := fun _ => 0

/-- A data row: `shot_point`, the `point_code` cell, and numeric cells by
column name (`none` is NaN; a name not in the frame's column list is never
read). -/
structure VRow where
  shot_point : Int
  pcode : Option (List Char)
  cells : List Char → Option ℚ

/-- The validator's input frame. -/
structure VFrame where
  cols : List (List Char)
  rows : List VRow

/-- A frame during validation: columns plus rows carrying their flags. -/
structure QCFrame where
  cols : List (List Char)
  rows : List (VRow × Flags)

/-- The thresholds read by the rules modelled here (loaded from config with
the fallback defaults of `QCValidator._load_thresholds`). -/
structure QCThresholds where
  sti_error : ℚ
  sub_array_sep_min : ℚ
  sub_array_sep_max : ℚ
  dual_cos_min : ℚ
  dual_cos_max : ℚ
  triple_cos_min : ℚ
  triple_cos_max : ℚ
  volume_nominal : ℚ
  gun_depth_min : ℚ
  gun_depth_max : ℚ
  gun_pressure_min : ℚ
  gun_pressure_max : ℚ
  timing_warning : ℚ
  timing_error : ℚ
  radial_limit : ℚ
  sma_limit : ℚ

/-- pandas `df[c].fillna(0)`. -/
def fillna0 (v : Option ℚ) : ℚ := v.getD 0

/-- The STI column name. -/
def stiCol : List Char := "Shot Time (s)  sec".data

/-- `QCValidator.validate_sti`. -/
def validate_sti (t : QCThresholds) (s : QCFrame) : QCFrame :=
  if stiCol ∈ s.cols then
    { s with
      rows := s.rows.map fun p =>
        if fillna0 (p.1.cells stiCol) < t.sti_error then
          (p.1, Function.update p.2 .sti_flag 2)
        else p }
  else s

/-- The three sub-array separation column names. -/
def separationColumns : List (List Char) :=
  ["SOURCE SSTG1 towed by SST String 1 - 2 Crossline Separation All Shots ".data,
   "SOURCE SSTG2 towed by SST String 1 - 2 Crossline Separation All Shots ".data,
   "SOURCE SSTG3 towed by SST String 1 - 2 Crossline Separation All Shots ".data]

/-- `QCValidator.validate_sub_array_separation` (check 1; checks 2 and 3 only log). -/
def validate_sub_array_separation (t : QCThresholds) (s : QCFrame) : QCFrame :=
  let existing := separationColumns.filter (fun c => c ∈ s.cols)
  if existing.isEmpty then s
  else
    { s with
      rows := s.rows.map fun p =>
        (p.1,
          existing.foldl
            (fun f c =>
              if fillna0 (p.1.cells c) < t.sub_array_sep_min ∨
                  fillna0 (p.1.cells c) > t.sub_array_sep_max then
                Function.update f .sub_array_sep_flag 2
              else f)
            p.2) }

/-- The dual-source COS column name. -/
def dualCosCol : List Char := "Gunarray301-Gunarray302 Position m".data

/-- The triple-source COS column names. -/
def tripleCosCols : List (List Char) :=
  ["Gunarray301-Gunarray302 Position m".data, "Gunarray302-Gunarray303 Position m".data]

/-- `QCValidator.validate_cos_separation`. -/
def validate_cos_separation (t : QCThresholds) (s : QCFrame) : QCFrame :=
  if dualCosCol ∈ s.cols then
    { s with
      rows := s.rows.map fun p =>
        if fillna0 (p.1.cells dualCosCol) < t.dual_cos_min ∨
            fillna0 (p.1.cells dualCosCol) > t.dual_cos_max then
          (p.1, Function.update p.2 .cos_sep_flag 2)
        else p }
  else
    let tcols := tripleCosCols.filter (fun c => c ∈ s.cols)
    if !tcols.isEmpty then
      { s with
        rows := s.rows.map fun p =>
          (p.1,
            tcols.foldl
              (fun f c =>
                if fillna0 (p.1.cells c) < t.triple_cos_min ∨
                    fillna0 (p.1.cells c) > t.triple_cos_max then
                  Function.update f .cos_sep_flag 2
                else f)
              p.2) }
    else s

/-- The loose gun-timing column predicate used by `validate_volume` and the
misfire scan: `col.startswith('String') and 'Cluster' in col and 'Gun' in col
and not col.endswith('-Depth') and not col.endswith('-Pressure')`. -/
def timingColLoose (c : List Char) : Bool :=
  List.isPrefixOf "String".data c && containsL "Cluster".data c &&
    containsL "Gun".data c && !List.isSuffixOf "-Depth".data c &&
    !List.isSuffixOf "-Pressure".data c

/-- `QCValidator.validate_volume` (flag only rows without a misfire). -/
def validate_volume (t : QCThresholds) (s : QCFrame) : QCFrame :=
  if "VOLUME".data ∈ s.cols then
    let timingCols := s.cols.filter timingColLoose
    { s with
      rows := s.rows.map fun p =>
        let misfire := timingCols.any fun c => |fillna0 (p.1.cells c)| == 90
        if fillna0 (p.1.cells "VOLUME".data) ≠ t.volume_nominal ∧ !misfire then
          (p.1, Function.update p.2 .volume_flag 2)
        else p }
  else s

/-- The gun-depth column predicate:
`col.startswith('SSTGM1') and 'DPT (P) Shot Event m' in col`. -/
def gunDepthColPred (c : List Char) : Bool :=
  List.isPrefixOf "SSTGM1".data c && containsL "DPT (P) Shot Event m".data c

/-- The derived column name written by `validate_gun_depth`. -/
def avgGunDepthCol : List Char := "average_gun_depth".data

/-- `QCValidator.validate_gun_depth`: writes the per-row mean of the gun
depth columns (pandas `mean(axis=1)` skips NaN and is NaN on all-NaN) into
a new `average_gun_depth` column, then flags on `fillna(0)` of that mean. -/
def validate_gun_depth (t : QCThresholds) (s : QCFrame) : QCFrame :=
  let gdCols := s.cols.filter gunDepthColPred
  if gdCols.isEmpty then s
  else
    { cols := s.cols ++ [avgGunDepthCol]
      rows := s.rows.map fun p =>
        let vals := gdCols.filterMap p.1.cells
        let avg : Option ℚ :=
          if vals.isEmpty then none else some (vals.sum / (vals.length : ℚ))
        let r2 :=
          { p.1 with
            cells := fun c => if c = avgGunDepthCol then avg else p.1.cells c }
        if fillna0 avg < t.gun_depth_min ∨ fillna0 avg > t.gun_depth_max then
          (r2, Function.update p.2 .gun_depth_flag 2)
        else (r2, p.2) }

/-- The `point_code` → pressure-sensor-pair mapping of `validate_gun_pressure`. -/
def pointCodePressureMapping : List (List Char × List (List Char)) :=
  [("A1".data, ["SSTGM1P1_PRS (P) Shot Event  ".data, "SSTGM1P2_PRS (P) Shot Event  ".data]),
   ("A2".data, ["SSTGM1P3_PRS (P) Shot Event  ".data, "SSTGM1P4_PRS (P) Shot Event  ".data]),
   ("A3".data, ["SSTGM1P5_PRS (P) Shot Event  ".data, "SSTGM1P6_PRS (P) Shot Event  ".data])]

/-- The fallback pressure column predicate:
`col.startswith('SSTGM1') and 'PRS (P) Shot Event' in col`. -/
def pressureColPred (c : List Char) : Bool :=
  List.isPrefixOf "SSTGM1".data c && containsL "PRS (P) Shot Event".data c

/-- `QCValidator.validate_gun_pressure`: with a `point_code` column, each
mapped pressure column that exists is checked on the rows of that point
code; otherwise every `SSTGM1* PRS` column is checked unconditionally. -/
def validate_gun_pressure (t : QCThresholds) (s : QCFrame) : QCFrame :=
  if "point_code".data ∈ s.cols then
    { s with
      rows := s.rows.map fun p =>
        (p.1,
          pointCodePressureMapping.foldl
            (fun f pc =>
              if p.1.pcode = some pc.1 then
                (pc.2.filter (fun c => c ∈ s.cols)).foldl
                  (fun f2 c =>
                    if fillna0 (p.1.cells c) < t.gun_pressure_min ∨
                        fillna0 (p.1.cells c) > t.gun_pressure_max then
                      Function.update f2 .gun_pressure_flag 2
                    else f2)
                  f
              else f)
            p.2) }
  else
    let prsCols := s.cols.filter pressureColPred
    { s with
      rows := s.rows.map fun p =>
        (p.1,
          prsCols.foldl
            (fun f c =>
              if fillna0 (p.1.cells c) < t.gun_pressure_min ∨
                  fillna0 (p.1.cells c) > t.gun_pressure_max then
                Function.update f .gun_pressure_flag 2
              else f)
            p.2) }

/-- Matcher for the strict gun-timing regex `^String_\d+-Cluster_\d+-Gun_\d+$`:
consume a literal, then one or more digits, three times, and require the end. -/
def chompLit : List Char → List Char → Option (List Char)
  | [], s => some s
  | p :: ps, c :: cs => if c = p then chompLit ps cs else none
  | _ :: _, [] => none

/-- Consume one or more decimal digits. -/
def chompDigits1 : List Char → Option (List Char)
  | c :: cs => if c.isDigit then some (cs.dropWhile Char.isDigit) else none
  | [] => none

/-- Whether a column name matches `^String_\d+-Cluster_\d+-Gun_\d+$`. -/
def matchesGunPattern (c : List Char) : Bool :=
  (do
    let r1 ← chompLit "String_".data c
    let r2 ← chompDigits1 r1
    let r3 ← chompLit "-Cluster_".data r2
    let r4 ← chompDigits1 r3
    let r5 ← chompLit "-Gun_".data r4
    let r6 ← chompDigits1 r5
    some r6.isEmpty).getD false

/-- The strict gun-timing column predicate of `validate_gun_timing`:
regex match plus the (redundant) `-Depth` / `-Pressure` suffix exclusions. -/
def timingColStrict (c : List Char) : Bool :=
  matchesGunPattern c && !List.isSuffixOf "-Depth".data c &&
    !List.isSuffixOf "-Pressure".data c

/-- The row-selection condition of one `df.loc[...]` write in
`validate_gun_timing`: pandas `df[col] != 63` is true on NaN while
`df[col] < -w` and `df[col] > w` are false on NaN, so NaN never selects. -/
def timingSelect (w : ℚ) (v : Option ℚ) : Bool :=
  match v with
  | some x => decide (x ≠ 63 ∧ x ≠ 61 ∧ x ≠ 90 ∧ (x < -w ∨ x > w))
  | none => false

/-- The two-tier write of `validate_gun_timing` on one cell: the warning
tier writes `np.maximum(flag, 1)`, then the error tier writes 2. -/
def stepFlag (t : QCThresholds) (v : Option ℚ) (g : Int) : Int :=
  let g1 := if timingSelect t.timing_warning v then max g 1 else g
  if timingSelect t.timing_error v then 2 else g1

/-- The column loop of `validate_gun_timing`, restricted to one row. -/
def rowTimingFlag (t : QCThresholds) (cols : List (List Char)) (r : VRow) (g : Int) : Int :=
  cols.foldl (fun g2 c => stepFlag t (r.cells c) g2) g

/-- `QCValidator.validate_gun_timing`. -/
def validate_gun_timing (t : QCThresholds) (s : QCFrame) : QCFrame :=
  let timingCols := s.cols.filter timingColStrict
  if timingCols.isEmpty then s
  else
    { s with
      rows := s.rows.map fun p =>
        (p.1,
          Function.update p.2 .gun_timing_flag
            (rowTimingFlag t timingCols p.1 (p.2 .gun_timing_flag))) }

/-- The radial column name. -/
def radialCol : List Char := "Radial (m)".data

/-- `QCValidator.validate_radial` (writes `repeatability_flag = 1`). -/
def validate_radial (t : QCThresholds) (s : QCFrame) : QCFrame :=
  if radialCol ∈ s.cols then
    { s with
      rows := s.rows.map fun p =>
        if fillna0 (p.1.cells radialCol) < -t.radial_limit ∨
            fillna0 (p.1.cells radialCol) > t.radial_limit then
          (p.1, Function.update p.2 .repeatability_flag 1)
        else p }
  else s

/-- The SMA column predicate: `'Gunarray' in col and 'SMA m' in col`. -/
def smaColPred (c : List Char) : Bool :=
  containsL "Gunarray".data c && containsL "SMA m".data c

/-- `QCValidator.validate_sma`. -/
def validate_sma (t : QCThresholds) (s : QCFrame) : QCFrame :=
  let smaCols := s.cols.filter smaColPred
  if smaCols.isEmpty then s
  else
    { s with
      rows := s.rows.map fun p =>
        (p.1,
          smaCols.foldl
            (fun f c =>
              if fillna0 (p.1.cells c) > t.sma_limit then
                Function.update f .sma_flag 2
              else f)
            p.2) }

/-- The flag-column initialisation of `validate_data`: every row gets the
nine flag columns at 0. -/
def initFrame (df : VFrame) : QCFrame :=
  ⟨df.cols, df.rows.map fun r => (r, Flags.zero)⟩

/-- `QCValidator.validate_data`: initialise every flag column to 0, then run
the nine rules in source order (the trailing `astype(int)` is the identity
on this model's integer flags). -/
def validate_data (t : QCThresholds) (df : VFrame) : QCFrame :=
  validate_sma t (validate_radial t (validate_gun_timing t (validate_gun_pressure t
    (validate_gun_depth t (validate_volume t (validate_cos_separation t
      (validate_sub_array_separation t (validate_sti t (initFrame df)))))))))

/-! ### The misfire / disabled-gun scan of `generate_line_log_report`
(qc_validator.py:765-799). -/

/-- `abs(row[col]) if pd.notna(row[col]) else 0`. -/
def pyAbsCell (v : Option ℚ) : ℚ := |v.getD 0|

/-- Replace `'_'` with `' '` (Python `part.replace('_', ' ')` for the
one-character pattern). -/
def underscoreToSpace (s : List Char) : List Char :=
  s.map fun ch => if ch = '_' then ' ' else ch

/-- The gun identifier built from a column name: split on `'-'` and, when
there are at least three parts, join the first three with `'_'` replaced by
spaces; fewer parts contribute nothing. -/
def gunInfo (c : List Char) : Option (List Char) :=
  match splitOnCharL '-' c with
  | p0 :: p1 :: p2 :: _ =>
    some (underscoreToSpace p0 ++ ' ' :: underscoreToSpace p1 ++ ' ' :: underscoreToSpace p2)
  | _ => none

/-- The misfire guns of one row: the loose timing columns whose cell has
absolute value 90 (with NaN read as 0), in column order. -/
def misfireGuns (tcols : List (List Char)) (r : VRow) : List (List Char) :=
  tcols.filterMap fun c => if pyAbsCell (r.cells c) = 90 then gunInfo c else none

/-- One row's step in building `log_misfire_flag`: a non-empty gun list is
appended as `(shot_point, guns)` unless that exact pair is already present. -/
def misfireStep (tcols : List (List Char)) (acc : List (Int × List (List Char)))
    (p : VRow × Flags) : List (Int × List (List Char)) :=
  if (misfireGuns tcols p.1).isEmpty then acc
  else if (p.1.shot_point, misfireGuns tcols p.1) ∈ acc then acc
  else acc ++ [(p.1.shot_point, misfireGuns tcols p.1)]

/-- The `log_misfire_flag` entries, over the rows in order. -/
def logMisfireEntries (s : QCFrame) : List (Int × List (List Char)) :=
  s.rows.foldl (misfireStep (s.cols.filter timingColLoose)) []

/-- The disabled guns of one row (absolute timing value 61); the
`log_gun_disabled_flag` entries are built exactly like the misfire ones. -/
def disabledGuns (tcols : List (List Char)) (r : VRow) : List (List Char) :=
  tcols.filterMap fun c => if pyAbsCell (r.cells c) = 61 then gunInfo c else none

/-- One row's step in building `log_gun_disabled_flag`. -/
def disabledStep (tcols : List (List Char)) (acc : List (Int × List (List Char)))
    (p : VRow × Flags) : List (Int × List (List Char)) :=
  if (disabledGuns tcols p.1).isEmpty then acc
  else if (p.1.shot_point, disabledGuns tcols p.1) ∈ acc then acc
  else acc ++ [(p.1.shot_point, disabledGuns tcols p.1)]

/-- The `log_gun_disabled_flag` entries. -/
def logDisabledEntries (s : QCFrame) : List (Int × List (List Char)) :=
  s.rows.foldl (disabledStep (s.cols.filter timingColLoose)) []

/-! ### Concrete frames and thresholds used as evaluation witnesses -/

/-- The rational one half (the float `0.5` of the scenario). -/
def halfQ : ℚ := ⟨1, 2, by decide, Nat.coprime_one_left 2⟩

/-- A concrete threshold snapshot (timing warning 1, timing error 2). -/
def exhibitThresholds : QCThresholds :=
  { sti_error := 6, sub_array_sep_min := 7, sub_array_sep_max := 9,
    dual_cos_min := 33, dual_cos_max := 42, triple_cos_min := 33, triple_cos_max := 42,
    volume_nominal := 3040, gun_depth_min := -8, gun_depth_max := -6,
    gun_pressure_min := 1900, gun_pressure_max := 2100,
    timing_warning := 1, timing_error := 2, radial_limit := 10, sma_limit := 3 }

/-- A gun-timing column name. -/
def gunCol1 : List Char := "String_1-Cluster_1-Gun_1".data

/-- Another gun-timing column name. -/
def gunCol2 : List Char := "String_1-Cluster_1-Gun_2".data

/-- A row with a misfire code (90) on gun 1 and the timing value 0.5 on gun 2. -/
def exhibitTimingRow : VRow :=
  { shot_point := 1001, pcode := none,
    cells := fun c =>
      if c = gunCol1 then some 90 else if c = gunCol2 then some halfQ else none }

/-- A frame holding only `exhibitTimingRow`. -/
def exhibitTimingFrame : QCFrame :=
  { cols := [gunCol1, gunCol2], rows := [(exhibitTimingRow, Flags.zero)] }

/-- A frame with a single empty row and none of the physical measurement columns. -/
def exhibitBareFrame : VFrame :=
  { cols := ["shot_point".data], rows := [⟨1, none, fun _ => none⟩] }

/-- Projection of one flag column out of a row-with-flags pair. -/
def flagProj (x : FlagCol) (p : VRow × Flags) : Int := p.2 x

/-! ## Lemmas about sorting -/

/-- Sorting is invariant under permutation of the input. -/
theorem sortSP_eq_of_perm (l1 l2 : List Int) (h : l1.Perm l2) : sortSP l1 = sortSP l2 :=
  List.eq_of_perm_of_sorted
    (((List.perm_insertionSort _ l1).trans h).trans (List.perm_insertionSort _ l2).symm)
    (List.sorted_insertionSort _ l1) (List.sorted_insertionSort _ l2)

/-- Sorting preserves the length. -/
theorem sortSP_length (l : List Int) : (sortSP l).length = l.length :=
  (List.perm_insertionSort _ l).length_eq

/-! ## Lemmas about the Python range enumerations -/

/-- Membership in the step-2 enumeration with an explicit count. -/
theorem mem_range2ascAux (a x : Int) (n : Nat) :
    x ∈ range2ascAux a n ↔ ∃ k : Nat, k < n ∧ x = a + 2 * k := by
  induction n generalizing a with
  | zero => simp [range2ascAux]
  | succ n ih =>
    simp only [range2ascAux, List.mem_cons, ih]
    constructor
    · rintro (rfl | ⟨k, hk, rfl⟩)
      · exact ⟨0, by omega, by push_cast; ring⟩
      · exact ⟨k + 1, by omega, by push_cast; ring⟩
    · rintro ⟨k, hk, rfl⟩
      cases k with
      | zero => left; push_cast; ring
      | succ j => right; exact ⟨j, by omega, by push_cast; ring⟩

/-- Membership in Python `range(a, b, 2)`: the values `a + 2k` below `b`. -/
theorem mem_range2asc (a b x : Int) :
    x ∈ range2asc a b ↔ ∃ k : Nat, x = a + 2 * k ∧ x < b := by
  rw [range2asc, mem_range2ascAux]
  constructor
  · rintro ⟨k, hk, rfl⟩
    exact ⟨k, rfl, by omega⟩
  · rintro ⟨k, rfl, hx⟩
    exact ⟨k, by omega, rfl⟩

/-! ## C1 — lemmas about the left merge -/

/-- Unfolding of one base row in `leftMergeOn`. -/
theorem leftMergeOn_cons (b : Int × List Cell) (bs : List (Int × List Cell))
    (c : Nat) (sec : List (Int × List Cell)) :
    leftMergeOn (b :: bs) c sec =
      (if (sec.filter (fun p => p.1 == b.1)).isEmpty then
          [(b.1, b.2 ++ List.replicate c none)]
        else (sec.filter (fun p => p.1 == b.1)).map fun p => (b.1, b.2 ++ p.2)) ++
        leftMergeOn bs c sec := by
  simp [leftMergeOn]

/-- With duplicate-free secondary keys, at most one secondary row matches a key. -/
theorem filter_key_nodup_le_one {α : Type} (sec : List (Int × α)) (k : Int)
    (h : (sec.map Prod.fst).Nodup) :
    (sec.filter (fun p => p.1 == k)).length ≤ 1 := by
  induction sec with
  | nil => simp
  | cons p ps ih =>
    simp only [List.map_cons, List.nodup_cons] at h
    by_cases hk : p.1 = k
    · have hnil : ps.filter (fun q => q.1 == k) = [] := by
        apply List.filter_eq_nil_iff.mpr
        intro q hq
        simp only [beq_iff_eq]
        intro hqk
        apply h.1
        have hqm : q.1 ∈ ps.map Prod.fst := List.mem_map_of_mem _ hq
        rw [hk, ← hqk]
        exact hqm
      simp [List.filter_cons, hk, hnil]
    · simp only [List.filter_cons, beq_iff_eq, hk]
      simpa using ih h.2

/-- A left merge never shrinks the base. -/
theorem leftMergeOn_length_ge (base : List (Int × List Cell)) (c : Nat)
    (sec : List (Int × List Cell)) :
    base.length ≤ (leftMergeOn base c sec).length := by
  induction base with
  | nil => simp [leftMergeOn]
  | cons b bs ih =>
    rw [leftMergeOn_cons]
    simp only [List.length_append, List.length_cons]
    split
    · simp only [List.length_singleton]
      omega
    · rename_i hne
      have h1 : 0 < (List.filter (fun p => p.1 == b.1) sec).length :=
        List.length_pos.mpr (fun he => hne (by simp [he]))
      simp only [List.length_map]
      omega

/-- With duplicate-free secondary keys, a left merge preserves the row count. -/
theorem leftMergeOn_length_eq (base : List (Int × List Cell)) (c : Nat)
    (sec : List (Int × List Cell)) (h : (sec.map Prod.fst).Nodup) :
    (leftMergeOn base c sec).length = base.length := by
  induction base with
  | nil => simp [leftMergeOn]
  | cons b bs ih =>
    rw [leftMergeOn_cons]
    simp only [List.length_append, List.length_cons]
    split
    · simp only [List.length_singleton]
      omega
    · rename_i hne
      have h1 : 0 < (List.filter (fun p => p.1 == b.1) sec).length :=
        List.length_pos.mpr (fun he => hne (by simp [he]))
      have h2 := filter_key_nodup_le_one sec b.1 h
      simp only [List.length_map]
      omega

/-- A base row with no key match in the secondary is emitted with null-filled
secondary cells. -/
theorem leftMergeOn_unmatched_mem (base : List (Int × List Cell)) (c : Nat)
    (sec : List (Int × List Cell)) (b : Int × List Cell) (hb : b ∈ base)
    (hnone : ∀ q ∈ sec, q.1 ≠ b.1) :
    (b.1, b.2 ++ List.replicate c none) ∈ leftMergeOn base c sec := by
  have hnil : sec.filter (fun p => p.1 == b.1) = [] := by
    apply List.filter_eq_nil_iff.mpr
    intro q hq
    simpa using hnone q hq
  unfold leftMergeOn
  exact List.mem_flatMap.mpr ⟨b, hb, by simp [hnil]⟩

/-- Every merged row's key comes from the base (unmatched secondary rows are dropped). -/
theorem leftMergeOn_key_mem (base : List (Int × List Cell)) (c : Nat)
    (sec : List (Int × List Cell)) (r : Int × List Cell)
    (hr : r ∈ leftMergeOn base c sec) : r.1 ∈ base.map Prod.fst := by
  unfold leftMergeOn at hr
  rcases List.mem_flatMap.mp hr with ⟨b, hb, hin⟩
  have hkey : r.1 = b.1 := by
    split at hin
    · simp only [List.mem_singleton] at hin
      rw [hin]
    · rcases List.mem_map.mp hin with ⟨q, _, he⟩
      rw [← he]
  rw [hkey]
  exact List.mem_map_of_mem _ hb

/-- The worker's merge loop never shrinks the base. -/
theorem workerMergeAll_length_ge (base : List (Int × List Cell)) (secs : List SecTable) :
    base.length ≤ (workerMergeAll base secs).length := by
  induction secs generalizing base with
  | nil => simp [workerMergeAll]
  | cons s ss ih =>
    simp only [workerMergeAll, List.foldl_cons]
    refine le_trans ?_ (ih _)
    split
    · exact le_refl _
    · exact leftMergeOn_length_ge base s.cols s.rows

/-- With duplicate-free secondary keys, the worker's merge loop preserves the
base row count. -/
theorem workerMergeAll_length_eq (base : List (Int × List Cell)) (secs : List SecTable)
    (h : ∀ s ∈ secs, (s.rows.map Prod.fst).Nodup) :
    (workerMergeAll base secs).length = base.length := by
  induction secs generalizing base with
  | nil => simp [workerMergeAll]
  | cons s ss ih =>
    simp only [workerMergeAll, List.foldl_cons]
    have hs := h s (List.mem_cons_self s ss)
    have hss : ∀ s2 ∈ ss, (s2.rows.map Prod.fst).Nodup := fun s2 h2 =>
      h s2 (List.mem_cons_of_mem s h2)
    have step := ih (if s.rows.isEmpty || !s.hasSP then base
      else leftMergeOn base s.cols s.rows) hss
    rw [workerMergeAll] at step
    rw [step]
    split
    · rfl
    · exact leftMergeOn_length_eq base s.cols s.rows hs

/-- C1: counterexample.  A single secondary whose `shot_point` values contain a
duplicate of a base key makes the left merge emit that base row twice, so the
merged row count exceeds the base row count. -/
theorem merge_row_count_counterexample :
    (workerMergeAll [((1 : Int), ([] : List Cell))]
        [⟨true, 1, [(1, [none]), (1, [some 5])]⟩]).length ≠
      ([((1 : Int), ([] : List Cell))] : List (Int × List Cell)).length := by
  decide

/-- C1 (amended): the merge keeps at least one output row per base row, so the
merged row count is at least the base row count, with equality whenever every
secondary's `shot_point` values are duplicate-free; unmatched base rows are
emitted with null-filled secondary columns and unmatched secondary rows are
dropped (every output key is a base key). -/
theorem merge_row_count_amended (base : List (Int × List Cell)) (secs : List SecTable)
    (c : Nat) (sec : List (Int × List Cell)) (b r : Int × List Cell) :
    (base.length ≤ (workerMergeAll base secs).length) ∧
    ((∀ s ∈ secs, (s.rows.map Prod.fst).Nodup) →
      (workerMergeAll base secs).length = base.length) ∧
    (b ∈ base → (∀ q ∈ sec, q.1 ≠ b.1) →
      (b.1, b.2 ++ List.replicate c none) ∈ leftMergeOn base c sec) ∧
    (r ∈ leftMergeOn base c sec → r.1 ∈ base.map Prod.fst) :=
  ⟨workerMergeAll_length_ge base secs,
   workerMergeAll_length_eq base secs,
   leftMergeOn_unmatched_mem base c sec b,
   leftMergeOn_key_mem base c sec r⟩

/-- C1: witness for `merge_row_count_amended` at a concrete input. -/
theorem merge_row_count_amended_witness :
    (workerMergeAll [((1 : Int), ([] : List Cell))] [⟨true, 1, [(3, [some 7])]⟩]).length =
        ([((1 : Int), ([] : List Cell))] : List (Int × List Cell)).length ∧
    ((1 : Int), ([] : List Cell) ++ List.replicate 1 (none : Cell)) ∈
        leftMergeOn [((1 : Int), ([] : List Cell))] 1 [(3, [some 7])] ∧
    (((1 : Int), [some 7]) ∈ leftMergeOn [((1 : Int), ([] : List Cell))] 1 [(1, [some 7])] →
      (1 : Int) ∈ ([((1 : Int), ([] : List Cell))] : List (Int × List Cell)).map Prod.fst) := by
  obtain ⟨-, h2, h3, -⟩ :=
    merge_row_count_amended [((1 : Int), ([] : List Cell))] [⟨true, 1, [(3, [some 7])]⟩]
      1 [(3, [some 7])] ((1 : Int), ([] : List Cell)) ((1 : Int), ([] : List Cell))
  obtain ⟨-, -, -, h4⟩ :=
    merge_row_count_amended [((1 : Int), ([] : List Cell))] [⟨true, 1, [(3, [some 7])]⟩]
      1 [(1, [some 7])] ((1 : Int), ([] : List Cell)) ((1 : Int), ([some 7] : List Cell))
  exact ⟨h2 (by decide), h3 (by decide) (by decide), fun hm => h4 hm⟩

/-! ## C3 — missing shot-point detection theorems -/

/-- C3: counterexample.  `QCValidator.check_missing_shot_points` enumerates at
step 1, so on `[1001, 1003, 1009, 1011]` it does not produce `[1005, 1007]`
(it reports `1002`, for instance). -/
theorem check_missing_shot_points_counterexample :
    check_missing_shot_points true [1001, 1003, 1009, 1011] ≠ [1005, 1007] ∧
    (1002 : Int) ∈ check_missing_shot_points true [1001, 1003, 1009, 1011] := by
  decide

/-- C3 (amended, proved of `check_sp`, the scan the pipeline runs): after
sorting, each adjacent pair is processed through `pairContrib`; a pair whose
gap exceeds twice the step (gap > 4 at step 2) contributes exactly the
values at step-2 cadence strictly between the pair, a pair with
`|gap| ≤ 2` contributes nothing, and `[1001, 1003, 1009, 1011]` yields
exactly `[1005, 1007]`. -/
theorem check_sp_missing_detection (a b x : Int) (l : List Int) :
    (b - a > 4 →
      (pairContrib a b = range2asc (a + 2) b ∧
        (x ∈ pairContrib a b ↔ ∃ k : Nat, x = a + 2 * ((k : Int) + 1) ∧ x < b))) ∧
    ((b - a).natAbs ≤ 2 → pairContrib a b = []) ∧
    check_sp [1001, 1003, 1009, 1011] = [1005, 1007] ∧
    check_sp l = ((sortSP l).zip (sortSP l).tail).flatMap (fun p => pairContrib p.1 p.2) := by
  refine ⟨fun h => ?_, fun h => ?_, by decide, rfl⟩
  · have he : pairContrib a b = range2asc (a + 2) b := by
      simp only [pairContrib]
      rw [if_pos (by omega), if_pos (by omega)]
    refine ⟨he, ?_⟩
    rw [he, mem_range2asc]
    constructor
    · rintro ⟨k, rfl, hx⟩
      exact ⟨k, by ring, hx⟩
    · rintro ⟨k, rfl, hx⟩
      exact ⟨k, by ring, hx⟩
  · simp only [pairContrib]
    rw [if_neg (by omega)]

/-- C3: witness for `check_sp_missing_detection` at concrete inputs. -/
theorem check_sp_missing_detection_witness :
    (pairContrib 1003 1009 = range2asc 1005 1009 ∧
      ((1005 : Int) ∈ pairContrib 1003 1009 ↔
        ∃ k : Nat, (1005 : Int) = 1003 + 2 * ((k : Int) + 1) ∧ (1005 : Int) < 1009)) ∧
    pairContrib 1001 1003 = [] ∧
    check_sp [1001, 1003, 1009, 1011] = [1005, 1007] := by
  obtain ⟨h1, -, h3, -⟩ := check_sp_missing_detection 1003 1009 1005 []
  obtain ⟨-, h2, -, -⟩ := check_sp_missing_detection 1001 1003 1005 []
  exact ⟨h1 (by decide), h2 (by decide), h3⟩

/-! ## C4 / C9 — `detect_range` theorems -/

/-- C9: on the empty input `detect_range` returns the empty string (and not a
`"Total 0 SP."` banner). -/
theorem detect_range_empty : detect_range [] = "".data := rfl

/-- C4: `detect_range` on the spec's example, its permutation invariance
(it is a pure function of the multiset of its input), and the banner
counting every input element, duplicates included. -/
theorem detect_range_spec (l1 l2 : List Int) :
    detect_range [1001, 1003, 1005, 1011, 1013, 1015, 1017, 1031] =
      "Total 8 SP. 1001-1005, 1011-1017, 1031".data ∧
    (l1.Perm l2 → detect_range l1 = detect_range l2) ∧
    (l1 ≠ [] → ∃ s : List Char,
      detect_range l1 = "Total ".data ++ natToChars l1.length ++ " SP. ".data ++ s) := by
  refine ⟨by decide, fun h => ?_, fun h => ?_⟩
  · rcases Decidable.em (l1 = []) with h1 | h1
    · have h2 : l2 = [] := (h1 ▸ h).symm.eq_nil
      rw [h1, h2]
    · have h2 : l2 ≠ [] := fun he => h1 ((he ▸ h).eq_nil)
      have e1 : l1.isEmpty = false := by
        cases l1 with
        | nil => exact absurd rfl h1
        | cons a t => rfl
      have e2 : l2.isEmpty = false := by
        cases l2 with
        | nil => exact absurd rfl h2
        | cons a t => rfl
      rw [detect_range, detect_range, e1, e2, sortSP_eq_of_perm l1 l2 h]
  · have e1 : l1.isEmpty = false := by
      cases l1 with
      | nil => exact absurd rfl h
      | cons a t => rfl
    have hlen : (sortSP l1).length = l1.length := sortSP_length l1
    rw [detect_range, e1]
    simp only [Bool.false_eq_true, if_false]
    cases hs : sortSP l1 with
    | nil => rw [hs] at hlen; cases l1 with
      | nil => exact absurd rfl h
      | cons a t => simp at hlen
    | cons s0 rest =>
      rw [hs] at hlen
      refine ⟨joinWith ", ".data (detectRangeAux s0 s0 [] rest), ?_⟩
      simp only [Bool.false_eq_true, if_false, hs, detectRangeSorted, hlen,
        List.append_assoc]

/-- C4: witness for `detect_range_spec` at concrete inputs. -/
theorem detect_range_spec_witness :
    detect_range [1003, 1001] = detect_range [1001, 1003] ∧
    (∃ s : List Char,
      detect_range [1003, 1001] =
        "Total ".data ++ natToChars 2 ++ " SP. ".data ++ s) := by
  obtain ⟨-, h2, h3⟩ := detect_range_spec [1003, 1001] [1001, 1003]
  exact ⟨h2 (by decide), h3 (by decide)⟩

/-! ## C5 — `_filter_log_data_by_range` theorems -/

/-- C5: production-range filtering keeps in a plain shot-point list exactly
the values inside `[min(FGSP,LGSP), max(FGSP,LGSP)]` — directly under a
non-special key, and through the range-string branch's single-point path
under the four special keys whenever the shot points are non-negative (as
shot points are) —
filters `(sp, guns)` pair lists on the shot point the same way under any
key, leaves non-empty free-text strings unchanged, drops any key whose
filtered result is empty, and maps `[6800, 6825, 6850, 6875, 6900]` with
FGSP 6820 / LGSP 6880 to `[6825, 6850, 6875]`. -/
theorem filter_log_data_spec (f g : Int) (k : List Char) (l : List Int)
    (tl : List (Int × List (List Char))) (s : List Char) :
    (k ∉ specialKeys →
      filterLogEntry (min f g) (max f g) (k, .spList l) =
        (if (l.filter (fun sp => min f g ≤ sp ∧ sp ≤ max f g)).isEmpty then none
          else some (k, .spList (l.filter (fun sp => min f g ≤ sp ∧ sp ≤ max f g))))) ∧
    ((∀ sp ∈ l, 0 ≤ sp) →
      filterLogEntry (min f g) (max f g) (k, .spList l) =
        (if (l.filter (fun sp => min f g ≤ sp ∧ sp ≤ max f g)).isEmpty then none
          else some (k, .spList (l.filter (fun sp => min f g ≤ sp ∧ sp ≤ max f g))))) ∧
    (filterLogEntry (min f g) (max f g) (k, .tupList tl) =
      (if (tl.filter (fun p => min f g ≤ p.1 ∧ p.1 ≤ max f g)).isEmpty then none
        else some (k, .tupList (tl.filter (fun p => min f g ≤ p.1 ∧ p.1 ≤ max f g))))) ∧
    (s ≠ [] → filterLogEntry (min f g) (max f g) (k, .text s) = some (k, .text s)) ∧
    filter_log_data_by_range
        [("log_gun_depth_flag".data, .spList [6800, 6825, 6850, 6875, 6900])]
        (some 6820) (some 6880) =
      [("log_gun_depth_flag".data, .spList [6825, 6850, 6875])] := by
  refine ⟨fun h => ?_, fun h => ?_, ?_, fun h => ?_, by decide⟩
  · by_cases hl : l = []
    · subst hl
      simp [filterLogEntry, isFalsyLV]
    · have he : l.isEmpty = false := by
        cases l with
        | nil => exact absurd rfl hl
        | cons a t => rfl
      simp [filterLogEntry, isFalsyLV, he, h]
  · have hfe : l.filter (fun sp => if sp < 0 then true
        else decide (min f g ≤ sp ∧ sp ≤ max f g)) =
        l.filter (fun sp => min f g ≤ sp ∧ sp ≤ max f g) := by
      apply List.filter_congr
      intro sp hsp
      rw [if_neg (by have := h sp hsp; omega)]
    by_cases hl : l = []
    · subst hl
      simp [filterLogEntry, isFalsyLV]
    · have he : l.isEmpty = false := by
        cases l with
        | nil => exact absurd rfl hl
        | cons a t => rfl
      unfold filterLogEntry
      rw [if_neg (by simp [isFalsyLV, he])]
      by_cases hk : k ∈ specialKeys
      · dsimp only
        rw [if_pos hk, hfe]
      · dsimp only
        rw [if_neg hk]
  · by_cases hl : tl = []
    · subst hl
      simp [filterLogEntry, isFalsyLV]
    · have he : tl.isEmpty = false := by
        cases tl with
        | nil => exact absurd rfl hl
        | cons a t => rfl
      simp [filterLogEntry, isFalsyLV, he]
  · have he : s.isEmpty = false := by
      cases s with
      | nil => exact absurd rfl h
      | cons a t => rfl
    simp [filterLogEntry, isFalsyLV, he]

/-- C5: witness for `filter_log_data_spec` at concrete inputs. -/
theorem filter_log_data_spec_witness :
    (filterLogEntry (min 6820 6880) (max 6820 6880)
        ("log_gun_depth_flag".data, .spList [6800, 6825, 6850, 6875, 6900]) =
      (if (([6800, 6825, 6850, 6875, 6900] : List Int).filter
            (fun sp => min (6820 : Int) 6880 ≤ sp ∧ sp ≤ max (6820 : Int) 6880)).isEmpty
        then none
        else some ("log_gun_depth_flag".data,
          LogValue.spList (([6800, 6825, 6850, 6875, 6900] : List Int).filter
            (fun sp => min (6820 : Int) 6880 ≤ sp ∧ sp ≤ max (6820 : Int) 6880))))) ∧
    (filterLogEntry (min 6820 6880) (max 6820 6880)
        ("log_consec_7_source_errors".data, .spList [6800, 6825, 6850, 6875, 6900]) =
      (if (([6800, 6825, 6850, 6875, 6900] : List Int).filter
            (fun sp => min (6820 : Int) 6880 ≤ sp ∧ sp ≤ max (6820 : Int) 6880)).isEmpty
        then none
        else some ("log_consec_7_source_errors".data,
          LogValue.spList (([6800, 6825, 6850, 6875, 6900] : List Int).filter
            (fun sp => min (6820 : Int) 6880 ≤ sp ∧ sp ≤ max (6820 : Int) 6880))))) ∧
    (filterLogEntry (min 6820 6880) (max 6820 6880)
        ("log_gun_depth_flag".data, .text "free text".data) =
      some ("log_gun_depth_flag".data, .text "free text".data)) ∧
    filter_log_data_by_range
        [("log_gun_depth_flag".data, .spList [6800, 6825, 6850, 6875, 6900])]
        (some 6820) (some 6880) =
      [("log_gun_depth_flag".data, .spList [6825, 6850, 6875])] := by
  obtain ⟨h1, -, -, h3, h4⟩ := filter_log_data_spec 6820 6880 "log_gun_depth_flag".data
    [6800, 6825, 6850, 6875, 6900] [] "free text".data
  obtain ⟨-, h2, -, -, -⟩ := filter_log_data_spec 6820 6880
    "log_consec_7_source_errors".data [6800, 6825, 6850, 6875, 6900] [] "free text".data
  exact ⟨h1 (by decide), h2 (by decide), h3 (by decide), h4⟩

/-! ## C2 — `calculate_percentages` theorem -/

/-- C2: the claim fails on the code.  With FGSP 1 / LGSP 3 the production
rows (shot points 1 and 3) carry no flags at all, yet the `'overall'` entry
reports a flag-value sum of 2 and an error count of 1, because the
`'overall'` counts are computed over the unrestricted frame
(`df[flag_columns]`) while only the denominator uses the production count —
contradicting the function's own docstring ("calculates percentages based
only on production shots"). -/
theorem calculate_percentages_overall_unfiltered :
    (calculate_percentages exhibitPercRows none (some 1) (some 3)).overall.total_count = 2 ∧
    (calculate_percentages exhibitPercRows none (some 1) (some 3)).overall.error_count = 1 ∧
    ((exhibitPercRows.filter (fun r => (1 : Int) ≤ r.shot_point ∧ r.shot_point ≤ 3)).map
        (fun r => (pflagColumns.map (fun fl => (r.flag fl).getD 0)).sum)).sum = 0 ∧
    ((calculate_percentages exhibitPercRows none (some 1) (some 3)).stats
        PFlag.gunTiming).error_count = 0 := by
  refine ⟨?_, ?_, by decide, ?_⟩ <;> decide

/-! ## C10 — `detect_sp_sorting` theorems -/

/-- C10: the shot-point order scan reports no issue on a frame without a
`shot_point` column, with 2 or fewer rows, or with fewer than 3 non-null
shot points. -/
theorem detect_sp_sorting_small_inputs (hasCol : Bool) (rows : List (Option Int)) :
    (hasCol = false → detect_sp_sorting hasCol rows = []) ∧
    (rows.length ≤ 2 → detect_sp_sorting hasCol rows = []) ∧
    (rows.reduceOption.length < 3 → detect_sp_sorting hasCol rows = []) := by
  refine ⟨fun h => ?_, fun h => ?_, fun h => ?_⟩
  · subst h
    simp [detect_sp_sorting]
  · rw [detect_sp_sorting, if_neg]
    intro hc
    omega
  · rw [detect_sp_sorting]
    split
    · rw [if_pos h]
    · rfl

/-- C10: witness for `detect_sp_sorting_small_inputs` at concrete inputs. -/
theorem detect_sp_sorting_small_inputs_witness :
    detect_sp_sorting false [some 1, some 5, some 9, some 2] = [] ∧
    detect_sp_sorting true [some 9, some 1] = [] ∧
    detect_sp_sorting true [some 1, none, none, none] = [] := by
  obtain ⟨h1, -, -⟩ := detect_sp_sorting_small_inputs false [some 1, some 5, some 9, some 2]
  obtain ⟨-, h2, -⟩ := detect_sp_sorting_small_inputs true [some 9, some 1]
  obtain ⟨-, -, h3⟩ := detect_sp_sorting_small_inputs true [some 1, none, none, none]
  exact ⟨h1 rfl, h2 (by decide), h3 (by decide)⟩

/-! ## C7 — gun-timing flag monotonicity -/

/-- A flag already at 2 survives one column's two-tier write: the warning
tier writes `max 2 1 = 2` and the error tier writes 2. -/
theorem stepFlag_two (t : QCThresholds) (v : Option ℚ) : stepFlag t v 2 = 2 := by
  simp only [stepFlag]
  split
  · rfl
  · split <;> rfl

/-- A flag already at 2 survives the whole column loop. -/
theorem rowTimingFlag_two (t : QCThresholds) (cols : List (List Char)) (r : VRow) :
    rowTimingFlag t cols r 2 = 2 := by
  induction cols with
  | nil => rfl
  | cons c cs ih =>
    simp only [rowTimingFlag, List.foldl_cons, stepFlag_two] at ih ⊢
    exact ih

/-- C7: once a row's `gun_timing_flag` reaches 2, every later gun-timing
column's write (warning tier `max(current, 1)`, error tier 2) leaves it at 2. -/
theorem gun_timing_flag_monotone (t : QCThresholds) (r : VRow)
    (cols1 cols2 : List (List Char)) (g0 : Int) :
    (∀ v : Option ℚ, stepFlag t v 2 = 2) ∧
    (rowTimingFlag t cols1 r g0 = 2 → rowTimingFlag t (cols1 ++ cols2) r g0 = 2) := by
  refine ⟨fun v => stepFlag_two t v, fun h => ?_⟩
  unfold rowTimingFlag at h ⊢
  rw [List.foldl_append, h]
  exact rowTimingFlag_two t cols2 r

/-- C7: witness for `gun_timing_flag_monotone` at a concrete input: gun 1
carries an error-sized value (flag becomes 2) and the later column carries a
clean value (flag stays 2). -/
theorem gun_timing_flag_monotone_witness :
    stepFlag exhibitThresholds (some 90) 2 = 2 ∧
    rowTimingFlag exhibitThresholds [gunCol1, gunCol2] exhibitTimingRow 2 = 2 := by
  obtain ⟨h1, h2⟩ :=
    gun_timing_flag_monotone exhibitThresholds exhibitTimingRow [gunCol1] [gunCol2] 2
  exact ⟨h1 (some 90), h2 (by decide)⟩

/-! ## C6 — sentinel exclusion and the misfire log -/

/-- Accumulated entries survive the misfire fold. -/
theorem misfire_fold_mono (tcols : List (List Char)) (rows : List (VRow × Flags))
    (acc : List (Int × List (List Char))) (x : Int × List (List Char)) (hx : x ∈ acc) :
    x ∈ rows.foldl (misfireStep tcols) acc := by
  induction rows generalizing acc with
  | nil => exact hx
  | cons q qs ih =>
    simp only [List.foldl_cons]
    apply ih
    unfold misfireStep
    split
    · exact hx
    · split
      · exact hx
      · exact List.mem_append_left _ hx

/-- Every row with misfiring guns contributes its `(shot_point, guns)` entry
to the misfire fold. -/
theorem misfire_fold_entry (tcols : List (List Char)) (rows : List (VRow × Flags))
    (acc : List (Int × List (List Char))) (p : VRow × Flags) (hp : p ∈ rows)
    (hne : ¬(misfireGuns tcols p.1).isEmpty = true) :
    (p.1.shot_point, misfireGuns tcols p.1) ∈ rows.foldl (misfireStep tcols) acc := by
  induction rows generalizing acc with
  | nil => cases hp
  | cons q qs ih =>
    simp only [List.foldl_cons]
    rcases List.mem_cons.mp hp with rfl | hmem
    · apply misfire_fold_mono
      unfold misfireStep
      rw [if_neg hne]
      split
      · assumption
      · exact List.mem_append_right _ (List.mem_singleton.mpr rfl)
    · exact ih _ hmem

/-- C6: a gun-timing value equal to a sentinel code (63, 61 or 90) never
changes `gun_timing_flag`; a row with absolute timing value 90 on a
gun-timing column instead lands in the `log_misfire_flag` entry keyed by the
gun identifier parsed from the `String_<n>-Cluster_<n>-Gun_<n>` column name;
and on a concrete row with 90 on gun 1 and 0.5 on gun 2, `validate_gun_timing`
leaves the flag at 0 while the misfire log names gun 1. -/
theorem gun_timing_sentinel_exclusion (t : QCThresholds) (v : Option ℚ) (g : Int)
    (s : QCFrame) (r : VRow) (fl : Flags) (c gi : List Char) :
    ((v = some 63 ∨ v = some 61 ∨ v = some 90) → stepFlag t v g = g) ∧
    ((r, fl) ∈ s.rows → c ∈ s.cols.filter timingColLoose →
      pyAbsCell (r.cells c) = 90 → gunInfo c = some gi →
      ∃ guns, (r.shot_point, guns) ∈ logMisfireEntries s ∧ gi ∈ guns) ∧
    (validate_gun_timing exhibitThresholds exhibitTimingFrame).rows.map
        (flagProj FlagCol.gun_timing_flag) = [0] ∧
    logMisfireEntries exhibitTimingFrame = [(1001, ["String 1 Cluster 1 Gun 1".data])] := by
  refine ⟨fun hv => ?_, fun hr hc h90 hgi => ?_, by decide, by decide⟩
  · rcases hv with rfl | rfl | rfl <;> simp [stepFlag, timingSelect]
  · have hmem : gi ∈ misfireGuns (s.cols.filter timingColLoose) r := by
      apply List.mem_filterMap.mpr
      exact ⟨c, hc, by rw [if_pos h90, hgi]⟩
    have hne : ¬(misfireGuns (s.cols.filter timingColLoose) r).isEmpty = true := by
      intro he
      rw [List.isEmpty_iff] at he
      rw [he] at hmem
      cases hmem
    refine ⟨misfireGuns (s.cols.filter timingColLoose) r, ?_, hmem⟩
    exact misfire_fold_entry _ s.rows [] (r, fl) hr hne

/-- C6: witness for `gun_timing_sentinel_exclusion` at concrete inputs. -/
theorem gun_timing_sentinel_exclusion_witness :
    stepFlag exhibitThresholds (some 90) 0 = 0 ∧
    (∃ guns, ((1001 : Int), guns) ∈ logMisfireEntries exhibitTimingFrame ∧
      "String 1 Cluster 1 Gun 1".data ∈ guns) ∧
    (validate_gun_timing exhibitThresholds exhibitTimingFrame).rows.map
        (flagProj FlagCol.gun_timing_flag) = [0] := by
  obtain ⟨h1, h2, h3, -⟩ :=
    gun_timing_sentinel_exclusion exhibitThresholds (some 90) 0 exhibitTimingFrame
      exhibitTimingRow Flags.zero gunCol1 "String 1 Cluster 1 Gun 1".data
  refine ⟨h1 (Or.inr (Or.inr rfl)), ?_, h3⟩
  exact h2 (List.mem_singleton.mpr rfl) (by decide) (by decide) (by decide)

/-! ## C8 — per-rule frame lemmas -/

/-- A flag other than the one a record update writes is unchanged. -/
theorem flagProj_update_other (x y : FlagCol) (hx : x ≠ y) (f : Flags) (v : Int)
    (r2 : VRow) : flagProj x (r2, Function.update f y v) = f x := by
  show Function.update f y v x = f x
  exact Function.update_noteq hx v f

/-- A fold whose steps never change flag `x` never changes flag `x`. -/
theorem foldl_flags_other {γ : Type} (x : FlagCol) (upd : Flags → γ → Flags)
    (hupd : ∀ f c, (upd f c) x = f x) (l : List γ) (f : Flags) :
    (l.foldl upd f) x = f x := by
  induction l generalizing f with
  | nil => rfl
  | cons c cs ih => rw [List.foldl_cons, ih, hupd]

/-- A fold whose steps are the identity on its members is the identity. -/
theorem foldl_mem_id {γ : Type} (l : List γ) (step : Flags → γ → Flags)
    (h : ∀ f c, c ∈ l → step f c = f) (f : Flags) : l.foldl step f = f := by
  induction l generalizing f with
  | nil => rfl
  | cons c cs ih =>
    rw [List.foldl_cons, h f c (List.mem_cons_self c cs)]
    exact ih (fun f2 c2 hc2 => h f2 c2 (List.mem_cons_of_mem c hc2)) f

/-- A pointwise-identity map is the identity. -/
theorem map_id_of_eq {γ : Type} (l : List γ) (f : γ → γ) (h : ∀ a ∈ l, f a = a) :
    l.map f = l := by
  induction l with
  | nil => rfl
  | cons a as ih =>
    rw [List.map_cons, h a (List.mem_cons_self a as)]
    rw [ih (fun b hb => h b (List.mem_cons_of_mem a hb))]

/-- An element of a list mapping pointwise to 0 projects to 0. -/
theorem mem_map_zero {β : Type} {α : Type} (l : List α) (out : List β) (proj : β → Int)
    (hmap : out.map proj = l.map (fun _ => (0 : Int))) (p : β) (hp : p ∈ out) :
    proj p = 0 := by
  have h1 : proj p ∈ out.map proj := List.mem_map_of_mem proj hp
  rw [hmap, List.map_const'] at h1
  exact List.eq_of_mem_replicate h1

/-- Two pointwise-equal functions map equally. -/
theorem map_eq_of_forall {α β : Type} (l : List α) (f g : α → β)
    (h : ∀ p, f p = g p) : l.map f = l.map g := by
  rw [funext h]

/-- `validate_sti` only writes `sti_flag`. -/
theorem validate_sti_other (t : QCThresholds) (s : QCFrame) (x : FlagCol)
    (hx : x ≠ FlagCol.sti_flag) :
    (validate_sti t s).rows.map (flagProj x) = s.rows.map (flagProj x) := by
  simp only [validate_sti]
  split
  · rw [List.map_map]
    apply map_eq_of_forall
    intro p
    simp only [Function.comp_apply]
    split
    · exact flagProj_update_other x _ hx p.2 2 p.1
    · rfl
  · rfl

/-- `validate_sub_array_separation` only writes `sub_array_sep_flag`. -/
theorem validate_sub_array_other (t : QCThresholds) (s : QCFrame) (x : FlagCol)
    (hx : x ≠ FlagCol.sub_array_sep_flag) :
    (validate_sub_array_separation t s).rows.map (flagProj x) = s.rows.map (flagProj x) := by
  simp only [validate_sub_array_separation]
  split
  · rfl
  · rw [List.map_map]
    apply map_eq_of_forall
    intro p
    simp only [Function.comp_apply]
    show (List.foldl _ p.2 _) x = flagProj x p
    apply foldl_flags_other
    intro f c
    split
    · exact Function.update_noteq hx 2 f
    · rfl

/-- `validate_cos_separation` only writes `cos_sep_flag`. -/
theorem validate_cos_other (t : QCThresholds) (s : QCFrame) (x : FlagCol)
    (hx : x ≠ FlagCol.cos_sep_flag) :
    (validate_cos_separation t s).rows.map (flagProj x) = s.rows.map (flagProj x) := by
  simp only [validate_cos_separation]
  split
  · rw [List.map_map]
    apply map_eq_of_forall
    intro p
    simp only [Function.comp_apply]
    split
    · exact flagProj_update_other x _ hx p.2 2 p.1
    · rfl
  · split
    · rw [List.map_map]
      apply map_eq_of_forall
      intro p
      simp only [Function.comp_apply]
      show (List.foldl _ p.2 _) x = flagProj x p
      apply foldl_flags_other
      intro f c
      split
      · exact Function.update_noteq hx 2 f
      · rfl
    · rfl

/-- `validate_volume` only writes `volume_flag`. -/
theorem validate_volume_other (t : QCThresholds) (s : QCFrame) (x : FlagCol)
    (hx : x ≠ FlagCol.volume_flag) :
    (validate_volume t s).rows.map (flagProj x) = s.rows.map (flagProj x) := by
  simp only [validate_volume]
  split
  · rw [List.map_map]
    apply map_eq_of_forall
    intro p
    simp only [Function.comp_apply]
    split
    · exact flagProj_update_other x _ hx p.2 2 p.1
    · rfl
  · rfl

/-- `validate_gun_depth` only writes `gun_depth_flag` (and the derived
depth column, which carries no flag). -/
theorem validate_gun_depth_other (t : QCThresholds) (s : QCFrame) (x : FlagCol)
    (hx : x ≠ FlagCol.gun_depth_flag) :
    (validate_gun_depth t s).rows.map (flagProj x) = s.rows.map (flagProj x) := by
  simp only [validate_gun_depth]
  split
  · rfl
  · rw [List.map_map]
    apply map_eq_of_forall
    intro p
    simp only [Function.comp_apply]
    split
    · split
      · exact flagProj_update_other x _ hx p.2 2 _
      · rfl
    · split
      · exact flagProj_update_other x _ hx p.2 2 _
      · rfl

/-- `validate_gun_pressure` only writes `gun_pressure_flag`. -/
theorem validate_gun_pressure_other (t : QCThresholds) (s : QCFrame) (x : FlagCol)
    (hx : x ≠ FlagCol.gun_pressure_flag) :
    (validate_gun_pressure t s).rows.map (flagProj x) = s.rows.map (flagProj x) := by
  simp only [validate_gun_pressure]
  split
  · rw [List.map_map]
    apply map_eq_of_forall
    intro p
    simp only [Function.comp_apply]
    show (List.foldl _ p.2 _) x = flagProj x p
    apply foldl_flags_other
    intro f pc
    split
    · apply foldl_flags_other
      intro f2 c
      split
      · exact Function.update_noteq hx 2 f2
      · rfl
    · rfl
  · rw [List.map_map]
    apply map_eq_of_forall
    intro p
    simp only [Function.comp_apply]
    show (List.foldl _ p.2 _) x = flagProj x p
    apply foldl_flags_other
    intro f c
    split
    · exact Function.update_noteq hx 2 f
    · rfl

/-- `validate_gun_timing` only writes `gun_timing_flag`. -/
theorem validate_gun_timing_other (t : QCThresholds) (s : QCFrame) (x : FlagCol)
    (hx : x ≠ FlagCol.gun_timing_flag) :
    (validate_gun_timing t s).rows.map (flagProj x) = s.rows.map (flagProj x) := by
  simp only [validate_gun_timing]
  split
  · rfl
  · rw [List.map_map]
    apply map_eq_of_forall
    intro p
    simp only [Function.comp_apply]
    exact flagProj_update_other x _ hx p.2 _ p.1

/-- `validate_radial` only writes `repeatability_flag`. -/
theorem validate_radial_other (t : QCThresholds) (s : QCFrame) (x : FlagCol)
    (hx : x ≠ FlagCol.repeatability_flag) :
    (validate_radial t s).rows.map (flagProj x) = s.rows.map (flagProj x) := by
  simp only [validate_radial]
  split
  · rw [List.map_map]
    apply map_eq_of_forall
    intro p
    simp only [Function.comp_apply]
    split
    · exact flagProj_update_other x _ hx p.2 1 p.1
    · rfl
  · rfl

/-- `validate_sma` only writes `sma_flag`. -/
theorem validate_sma_other (t : QCThresholds) (s : QCFrame) (x : FlagCol)
    (hx : x ≠ FlagCol.sma_flag) :
    (validate_sma t s).rows.map (flagProj x) = s.rows.map (flagProj x) := by
  simp only [validate_sma]
  split
  · rfl
  · rw [List.map_map]
    apply map_eq_of_forall
    intro p
    simp only [Function.comp_apply]
    show (List.foldl _ p.2 _) x = flagProj x p
    apply foldl_flags_other
    intro f c
    split
    · exact Function.update_noteq hx 2 f
    · rfl

/-- `validate_sti` no-ops without its column. -/
theorem validate_sti_absent (t : QCThresholds) (s : QCFrame) (h : stiCol ∉ s.cols) :
    validate_sti t s = s := by
  simp [validate_sti, h]

/-- `validate_sub_array_separation` no-ops without its columns. -/
theorem validate_sub_array_absent (t : QCThresholds) (s : QCFrame)
    (h : separationColumns.filter (fun c => c ∈ s.cols) = []) :
    validate_sub_array_separation t s = s := by
  simp [validate_sub_array_separation, h]

/-- `validate_cos_separation` no-ops without dual or triple columns. -/
theorem validate_cos_absent (t : QCThresholds) (s : QCFrame)
    (h : tripleCosCols.filter (fun c => c ∈ s.cols) = []) :
    validate_cos_separation t s = s := by
  have hdual : dualCosCol ∉ s.cols := by
    intro hd
    have hm : dualCosCol ∈ tripleCosCols.filter (fun c => c ∈ s.cols) :=
      List.mem_filter.mpr ⟨by decide, decide_eq_true hd⟩
    rw [h] at hm
    cases hm
  simp [validate_cos_separation, hdual, h]

/-- `validate_volume` no-ops without the VOLUME column. -/
theorem validate_volume_absent (t : QCThresholds) (s : QCFrame)
    (h : "VOLUME".data ∉ s.cols) : validate_volume t s = s := by
  simp [validate_volume, h]

/-- `validate_gun_depth` no-ops without gun-depth columns. -/
theorem validate_gun_depth_absent (t : QCThresholds) (s : QCFrame)
    (h : s.cols.filter gunDepthColPred = []) : validate_gun_depth t s = s := by
  simp [validate_gun_depth, h]

/-- `validate_gun_pressure` no-ops without pressure columns (the six mapped
sensor-pair names all satisfy the fallback predicate, so an empty fallback
filter also empties every mapped filter). -/
theorem validate_gun_pressure_absent (t : QCThresholds) (s : QCFrame)
    (h : s.cols.filter pressureColPred = []) : validate_gun_pressure t s = s := by
  have hnot : ∀ c, pressureColPred c = true → c ∉ s.cols := by
    intro c hc hmem
    have hm : c ∈ s.cols.filter pressureColPred :=
      List.mem_filter.mpr ⟨hmem, hc⟩
    rw [h] at hm
    cases hm
  have hall : ∀ pc ∈ pointCodePressureMapping, ∀ c ∈ pc.2, pressureColPred c = true := by
    decide
  have hpc : ∀ pc ∈ pointCodePressureMapping, pc.2.filter (fun c => c ∈ s.cols) = [] := by
    intro pc hm
    apply List.filter_eq_nil_iff.mpr
    intro c hc
    simpa using hnot c (hall pc hm c hc)
  obtain ⟨cols, rows⟩ := s
  simp only [validate_gun_pressure]
  split
  · congr 1
    apply map_id_of_eq
    intro p _
    refine Prod.ext rfl ?_
    dsimp only
    apply foldl_mem_id
    intro f pc hm
    split
    · rw [hpc pc hm]
      rfl
    · rfl
  · rw [h]
    congr 1
    apply map_id_of_eq
    intro p _
    rfl

/-- `validate_gun_timing` no-ops without gun-timing columns. -/
theorem validate_gun_timing_absent (t : QCThresholds) (s : QCFrame)
    (h : s.cols.filter timingColStrict = []) : validate_gun_timing t s = s := by
  simp [validate_gun_timing, h]

/-- `validate_radial` no-ops without its column. -/
theorem validate_radial_absent (t : QCThresholds) (s : QCFrame)
    (h : radialCol ∉ s.cols) : validate_radial t s = s := by
  simp [validate_radial, h]

/-- `validate_sma` no-ops without SMA columns. -/
theorem validate_sma_absent (t : QCThresholds) (s : QCFrame)
    (h : s.cols.filter smaColPred = []) : validate_sma t s = s := by
  simp [validate_sma, h]

/-- `validate_sti` keeps the column list. -/
theorem validate_sti_cols (t : QCThresholds) (s : QCFrame) :
    (validate_sti t s).cols = s.cols := by
  simp only [validate_sti]
  split <;> rfl

/-- `validate_sub_array_separation` keeps the column list. -/
theorem validate_sub_array_cols (t : QCThresholds) (s : QCFrame) :
    (validate_sub_array_separation t s).cols = s.cols := by
  simp only [validate_sub_array_separation]
  split <;> rfl

/-- `validate_cos_separation` keeps the column list. -/
theorem validate_cos_cols (t : QCThresholds) (s : QCFrame) :
    (validate_cos_separation t s).cols = s.cols := by
  simp only [validate_cos_separation]
  split
  · rfl
  · split <;> rfl

/-- `validate_volume` keeps the column list. -/
theorem validate_volume_cols (t : QCThresholds) (s : QCFrame) :
    (validate_volume t s).cols = s.cols := by
  simp only [validate_volume]
  split <;> rfl

/-- `validate_gun_depth` keeps the column list or appends `average_gun_depth`. -/
theorem validate_gun_depth_cols (t : QCThresholds) (s : QCFrame) :
    (validate_gun_depth t s).cols = s.cols ∨
      (validate_gun_depth t s).cols = s.cols ++ [avgGunDepthCol] := by
  simp only [validate_gun_depth]
  split
  · exact Or.inl rfl
  · exact Or.inr rfl

/-- `validate_gun_pressure` keeps the column list. -/
theorem validate_gun_pressure_cols (t : QCThresholds) (s : QCFrame) :
    (validate_gun_pressure t s).cols = s.cols := by
  simp only [validate_gun_pressure]
  split <;> rfl

/-- `validate_gun_timing` keeps the column list. -/
theorem validate_gun_timing_cols (t : QCThresholds) (s : QCFrame) :
    (validate_gun_timing t s).cols = s.cols := by
  simp only [validate_gun_timing]
  split <;> rfl

/-- `validate_radial` keeps the column list. -/
theorem validate_radial_cols (t : QCThresholds) (s : QCFrame) :
    (validate_radial t s).cols = s.cols := by
  simp only [validate_radial]
  split <;> rfl

/-- `validate_sma` keeps the column list. -/
theorem validate_sma_cols (t : QCThresholds) (s : QCFrame) :
    (validate_sma t s).cols = s.cols := by
  simp only [validate_sma]
  split <;> rfl

/-- Every rule keeps the row count (each is the identity or a row-wise map). -/
theorem validate_sti_len (t : QCThresholds) (s : QCFrame) :
    (validate_sti t s).rows.length = s.rows.length := by
  simp only [validate_sti]
  split <;> simp

/-- Row count through `validate_sub_array_separation`. -/
theorem validate_sub_array_len (t : QCThresholds) (s : QCFrame) :
    (validate_sub_array_separation t s).rows.length = s.rows.length := by
  simp only [validate_sub_array_separation]
  split <;> simp

/-- Row count through `validate_cos_separation`. -/
theorem validate_cos_len (t : QCThresholds) (s : QCFrame) :
    (validate_cos_separation t s).rows.length = s.rows.length := by
  simp only [validate_cos_separation]
  split
  · simp
  · split <;> simp

/-- Row count through `validate_volume`. -/
theorem validate_volume_len (t : QCThresholds) (s : QCFrame) :
    (validate_volume t s).rows.length = s.rows.length := by
  simp only [validate_volume]
  split <;> simp

/-- Row count through `validate_gun_depth`. -/
theorem validate_gun_depth_len (t : QCThresholds) (s : QCFrame) :
    (validate_gun_depth t s).rows.length = s.rows.length := by
  simp only [validate_gun_depth]
  split <;> simp

/-- Row count through `validate_gun_pressure`. -/
theorem validate_gun_pressure_len (t : QCThresholds) (s : QCFrame) :
    (validate_gun_pressure t s).rows.length = s.rows.length := by
  simp only [validate_gun_pressure]
  split <;> simp

/-- Row count through `validate_gun_timing`. -/
theorem validate_gun_timing_len (t : QCThresholds) (s : QCFrame) :
    (validate_gun_timing t s).rows.length = s.rows.length := by
  simp only [validate_gun_timing]
  split <;> simp

/-- Row count through `validate_radial`. -/
theorem validate_radial_len (t : QCThresholds) (s : QCFrame) :
    (validate_radial t s).rows.length = s.rows.length := by
  simp only [validate_radial]
  split <;> simp

/-- Row count through `validate_sma`. -/
theorem validate_sma_len (t : QCThresholds) (s : QCFrame) :
    (validate_sma t s).rows.length = s.rows.length := by
  simp only [validate_sma]
  split <;> simp

/-- A name distinct from `average_gun_depth` stays absent after appending it. -/
theorem notmem_cols_avg (c : List Char) (cols : List (List Char)) (h : c ∉ cols)
    (hne : c ≠ avgGunDepthCol) : c ∉ cols ++ [avgGunDepthCol] := by
  simp [List.mem_append, h, hne]

/-- A predicate false on `average_gun_depth` keeps an empty filter empty
after appending it. -/
theorem filter_nil_avg (p : List Char → Bool) (cols : List (List Char))
    (h : cols.filter p = []) (hp : p avgGunDepthCol = false) :
    (cols ++ [avgGunDepthCol]).filter p = [] := by
  rw [List.filter_append, h]
  simp [hp]

/-- Columns entering `validate_gun_depth` are the input columns. -/
theorem pipeline_cols_stage4 (t : QCThresholds) (df : VFrame) :
    (validate_volume t (validate_cos_separation t (validate_sub_array_separation t
      (validate_sti t (initFrame df))))).cols = df.cols := by
  rw [validate_volume_cols, validate_cos_cols, validate_sub_array_cols, validate_sti_cols]
  rfl

/-- Columns after `validate_gun_depth`. -/
theorem pipeline_cols_stage5 (t : QCThresholds) (df : VFrame) :
    (validate_gun_depth t (validate_volume t (validate_cos_separation t
        (validate_sub_array_separation t (validate_sti t (initFrame df)))))).cols = df.cols ∨
    (validate_gun_depth t (validate_volume t (validate_cos_separation t
        (validate_sub_array_separation t (validate_sti t (initFrame df)))))).cols =
      df.cols ++ [avgGunDepthCol] := by
  rcases validate_gun_depth_cols t (validate_volume t (validate_cos_separation t
      (validate_sub_array_separation t (validate_sti t (initFrame df))))) with h | h
  · left
    rw [h, pipeline_cols_stage4]
  · right
    rw [h, pipeline_cols_stage4]

/-- Columns after `validate_gun_pressure`. -/
theorem pipeline_cols_stage6 (t : QCThresholds) (df : VFrame) :
    (validate_gun_pressure t (validate_gun_depth t (validate_volume t
        (validate_cos_separation t (validate_sub_array_separation t
          (validate_sti t (initFrame df))))))).cols = df.cols ∨
    (validate_gun_pressure t (validate_gun_depth t (validate_volume t
        (validate_cos_separation t (validate_sub_array_separation t
          (validate_sti t (initFrame df))))))).cols = df.cols ++ [avgGunDepthCol] := by
  rw [validate_gun_pressure_cols]
  exact pipeline_cols_stage5 t df

/-- Columns after `validate_gun_timing`. -/
theorem pipeline_cols_stage7 (t : QCThresholds) (df : VFrame) :
    (validate_gun_timing t (validate_gun_pressure t (validate_gun_depth t
        (validate_volume t (validate_cos_separation t (validate_sub_array_separation t
          (validate_sti t (initFrame df)))))))).cols = df.cols ∨
    (validate_gun_timing t (validate_gun_pressure t (validate_gun_depth t
        (validate_volume t (validate_cos_separation t (validate_sub_array_separation t
          (validate_sti t (initFrame df)))))))).cols = df.cols ++ [avgGunDepthCol] := by
  rw [validate_gun_timing_cols]
  exact pipeline_cols_stage6 t df

/-- Columns after `validate_radial`. -/
theorem pipeline_cols_stage8 (t : QCThresholds) (df : VFrame) :
    (validate_radial t (validate_gun_timing t (validate_gun_pressure t
        (validate_gun_depth t (validate_volume t (validate_cos_separation t
          (validate_sub_array_separation t (validate_sti t (initFrame df))))))))).cols =
      df.cols ∨
    (validate_radial t (validate_gun_timing t (validate_gun_pressure t
        (validate_gun_depth t (validate_volume t (validate_cos_separation t
          (validate_sub_array_separation t (validate_sti t (initFrame df))))))))).cols =
      df.cols ++ [avgGunDepthCol] := by
  rw [validate_radial_cols]
  exact pipeline_cols_stage7 t df

/-- Without the STI column, every row leaves `validate_data` with `sti_flag = 0`. -/
theorem pipeline_sti_zero (t : QCThresholds) (df : VFrame) (h : stiCol ∉ df.cols) :
    (validate_data t df).rows.map (flagProj FlagCol.sti_flag) =
      df.rows.map (fun _ => (0 : Int)) := by
  unfold validate_data
  rw [validate_sma_other t _ _ (by decide), validate_radial_other t _ _ (by decide),
    validate_gun_timing_other t _ _ (by decide), validate_gun_pressure_other t _ _ (by decide),
    validate_gun_depth_other t _ _ (by decide), validate_volume_other t _ _ (by decide),
    validate_cos_other t _ _ (by decide), validate_sub_array_other t _ _ (by decide)]
  rw [validate_sti_absent t _ h]
  rw [initFrame, List.map_map]
  rfl

/-- Without the separation columns, `sub_array_sep_flag` stays 0. -/
theorem pipeline_sub_array_zero (t : QCThresholds) (df : VFrame)
    (h : separationColumns.filter (fun c => c ∈ df.cols) = []) :
    (validate_data t df).rows.map (flagProj FlagCol.sub_array_sep_flag) =
      df.rows.map (fun _ => (0 : Int)) := by
  unfold validate_data
  rw [validate_sma_other t _ _ (by decide), validate_radial_other t _ _ (by decide),
    validate_gun_timing_other t _ _ (by decide), validate_gun_pressure_other t _ _ (by decide),
    validate_gun_depth_other t _ _ (by decide), validate_volume_other t _ _ (by decide),
    validate_cos_other t _ _ (by decide)]
  have hc : (validate_sti t (initFrame df)).cols = df.cols := by
    rw [validate_sti_cols]
    rfl
  have habs : separationColumns.filter
      (fun c => c ∈ (validate_sti t (initFrame df)).cols) = [] := by
    rw [hc]
    exact h
  rw [validate_sub_array_absent t _ habs, validate_sti_other t _ _ (by decide)]
  rw [initFrame, List.map_map]
  rfl

/-- Without dual or triple COS columns, `cos_sep_flag` stays 0. -/
theorem pipeline_cos_zero (t : QCThresholds) (df : VFrame)
    (h : tripleCosCols.filter (fun c => c ∈ df.cols) = []) :
    (validate_data t df).rows.map (flagProj FlagCol.cos_sep_flag) =
      df.rows.map (fun _ => (0 : Int)) := by
  unfold validate_data
  rw [validate_sma_other t _ _ (by decide), validate_radial_other t _ _ (by decide),
    validate_gun_timing_other t _ _ (by decide), validate_gun_pressure_other t _ _ (by decide),
    validate_gun_depth_other t _ _ (by decide), validate_volume_other t _ _ (by decide)]
  have hc : (validate_sub_array_separation t (validate_sti t (initFrame df))).cols =
      df.cols := by
    rw [validate_sub_array_cols, validate_sti_cols]
    rfl
  have habs : tripleCosCols.filter (fun c => c ∈
      (validate_sub_array_separation t (validate_sti t (initFrame df))).cols) = [] := by
    rw [hc]
    exact h
  rw [validate_cos_absent t _ habs, validate_sub_array_other t _ _ (by decide),
    validate_sti_other t _ _ (by decide)]
  rw [initFrame, List.map_map]
  rfl

/-- Without the VOLUME column, `volume_flag` stays 0. -/
theorem pipeline_volume_zero (t : QCThresholds) (df : VFrame)
    (h : "VOLUME".data ∉ df.cols) :
    (validate_data t df).rows.map (flagProj FlagCol.volume_flag) =
      df.rows.map (fun _ => (0 : Int)) := by
  unfold validate_data
  rw [validate_sma_other t _ _ (by decide), validate_radial_other t _ _ (by decide),
    validate_gun_timing_other t _ _ (by decide), validate_gun_pressure_other t _ _ (by decide),
    validate_gun_depth_other t _ _ (by decide)]
  have hc : (validate_cos_separation t (validate_sub_array_separation t
      (validate_sti t (initFrame df)))).cols = df.cols := by
    rw [validate_cos_cols, validate_sub_array_cols, validate_sti_cols]
    rfl
  have habs : "VOLUME".data ∉ (validate_cos_separation t (validate_sub_array_separation t
      (validate_sti t (initFrame df)))).cols := by
    rw [hc]
    exact h
  rw [validate_volume_absent t _ habs, validate_cos_other t _ _ (by decide),
    validate_sub_array_other t _ _ (by decide), validate_sti_other t _ _ (by decide)]
  rw [initFrame, List.map_map]
  rfl

/-- Without gun-depth columns, `gun_depth_flag` stays 0. -/
theorem pipeline_gun_depth_zero (t : QCThresholds) (df : VFrame)
    (h : df.cols.filter gunDepthColPred = []) :
    (validate_data t df).rows.map (flagProj FlagCol.gun_depth_flag) =
      df.rows.map (fun _ => (0 : Int)) := by
  unfold validate_data
  rw [validate_sma_other t _ _ (by decide), validate_radial_other t _ _ (by decide),
    validate_gun_timing_other t _ _ (by decide), validate_gun_pressure_other t _ _ (by decide)]
  have habs : (validate_volume t (validate_cos_separation t (validate_sub_array_separation t
      (validate_sti t (initFrame df))))).cols.filter gunDepthColPred = [] := by
    rw [pipeline_cols_stage4]
    exact h
  rw [validate_gun_depth_absent t _ habs, validate_volume_other t _ _ (by decide),
    validate_cos_other t _ _ (by decide), validate_sub_array_other t _ _ (by decide),
    validate_sti_other t _ _ (by decide)]
  rw [initFrame, List.map_map]
  rfl

/-- Without pressure columns, `gun_pressure_flag` stays 0. -/
theorem pipeline_gun_pressure_zero (t : QCThresholds) (df : VFrame)
    (h : df.cols.filter pressureColPred = []) :
    (validate_data t df).rows.map (flagProj FlagCol.gun_pressure_flag) =
      df.rows.map (fun _ => (0 : Int)) := by
  unfold validate_data
  rw [validate_sma_other t _ _ (by decide), validate_radial_other t _ _ (by decide),
    validate_gun_timing_other t _ _ (by decide)]
  have habs : (validate_gun_depth t (validate_volume t (validate_cos_separation t
      (validate_sub_array_separation t (validate_sti t
        (initFrame df)))))).cols.filter pressureColPred = [] := by
    rcases pipeline_cols_stage5 t df with hc | hc <;> rw [hc]
    · exact h
    · exact filter_nil_avg _ _ h (by decide)
  rw [validate_gun_pressure_absent t _ habs, validate_gun_depth_other t _ _ (by decide),
    validate_volume_other t _ _ (by decide), validate_cos_other t _ _ (by decide),
    validate_sub_array_other t _ _ (by decide), validate_sti_other t _ _ (by decide)]
  rw [initFrame, List.map_map]
  rfl

/-- Without gun-timing columns, `gun_timing_flag` stays 0. -/
theorem pipeline_gun_timing_zero (t : QCThresholds) (df : VFrame)
    (h : df.cols.filter timingColStrict = []) :
    (validate_data t df).rows.map (flagProj FlagCol.gun_timing_flag) =
      df.rows.map (fun _ => (0 : Int)) := by
  unfold validate_data
  rw [validate_sma_other t _ _ (by decide), validate_radial_other t _ _ (by decide)]
  have habs : (validate_gun_pressure t (validate_gun_depth t (validate_volume t
      (validate_cos_separation t (validate_sub_array_separation t (validate_sti t
        (initFrame df))))))).cols.filter timingColStrict = [] := by
    rcases pipeline_cols_stage6 t df with hc | hc <;> rw [hc]
    · exact h
    · exact filter_nil_avg _ _ h (by decide)
  rw [validate_gun_timing_absent t _ habs, validate_gun_pressure_other t _ _ (by decide),
    validate_gun_depth_other t _ _ (by decide), validate_volume_other t _ _ (by decide),
    validate_cos_other t _ _ (by decide), validate_sub_array_other t _ _ (by decide),
    validate_sti_other t _ _ (by decide)]
  rw [initFrame, List.map_map]
  rfl

/-- Without the radial column, `repeatability_flag` stays 0. -/
theorem pipeline_repeatability_zero (t : QCThresholds) (df : VFrame)
    (h : radialCol ∉ df.cols) :
    (validate_data t df).rows.map (flagProj FlagCol.repeatability_flag) =
      df.rows.map (fun _ => (0 : Int)) := by
  unfold validate_data
  rw [validate_sma_other t _ _ (by decide)]
  have habs : radialCol ∉ (validate_gun_timing t (validate_gun_pressure t
      (validate_gun_depth t (validate_volume t (validate_cos_separation t
        (validate_sub_array_separation t (validate_sti t (initFrame df)))))))).cols := by
    rcases pipeline_cols_stage7 t df with hc | hc <;> rw [hc]
    · exact h
    · exact notmem_cols_avg _ _ h (by decide)
  rw [validate_radial_absent t _ habs, validate_gun_timing_other t _ _ (by decide),
    validate_gun_pressure_other t _ _ (by decide), validate_gun_depth_other t _ _ (by decide),
    validate_volume_other t _ _ (by decide), validate_cos_other t _ _ (by decide),
    validate_sub_array_other t _ _ (by decide), validate_sti_other t _ _ (by decide)]
  rw [initFrame, List.map_map]
  rfl

/-- Without SMA columns, `sma_flag` stays 0. -/
theorem pipeline_sma_zero (t : QCThresholds) (df : VFrame)
    (h : df.cols.filter smaColPred = []) :
    (validate_data t df).rows.map (flagProj FlagCol.sma_flag) =
      df.rows.map (fun _ => (0 : Int)) := by
  unfold validate_data
  have habs : (validate_radial t (validate_gun_timing t (validate_gun_pressure t
      (validate_gun_depth t (validate_volume t (validate_cos_separation t
        (validate_sub_array_separation t (validate_sti t
          (initFrame df))))))))).cols.filter smaColPred = [] := by
    rcases pipeline_cols_stage8 t df with hc | hc <;> rw [hc]
    · exact h
    · exact filter_nil_avg _ _ h (by decide)
  rw [validate_sma_absent t _ habs, validate_radial_other t _ _ (by decide),
    validate_gun_timing_other t _ _ (by decide), validate_gun_pressure_other t _ _ (by decide),
    validate_gun_depth_other t _ _ (by decide), validate_volume_other t _ _ (by decide),
    validate_cos_other t _ _ (by decide), validate_sub_array_other t _ _ (by decide),
    validate_sti_other t _ _ (by decide)]
  rw [initFrame, List.map_map]
  rfl

/-- C8: `validate_data` is total on frames with any subset of the physical
measurement columns absent: the output has exactly one row per input row,
every row carries all nine flag columns with definite integer values (the
`Flags` component is a total `FlagCol → Int` map, initialised to 0), and
each rule whose expected physical columns are absent leaves its flag at 0
on every row. -/
theorem validate_data_total_missing_columns (t : QCThresholds) (df : VFrame) :
    (validate_data t df).rows.length = df.rows.length ∧
    ∀ p ∈ (validate_data t df).rows,
      (stiCol ∉ df.cols → p.2 FlagCol.sti_flag = 0) ∧
      (separationColumns.filter (fun c => c ∈ df.cols) = [] →
        p.2 FlagCol.sub_array_sep_flag = 0) ∧
      (tripleCosCols.filter (fun c => c ∈ df.cols) = [] → p.2 FlagCol.cos_sep_flag = 0) ∧
      ("VOLUME".data ∉ df.cols → p.2 FlagCol.volume_flag = 0) ∧
      (df.cols.filter gunDepthColPred = [] → p.2 FlagCol.gun_depth_flag = 0) ∧
      (df.cols.filter pressureColPred = [] → p.2 FlagCol.gun_pressure_flag = 0) ∧
      (df.cols.filter timingColStrict = [] → p.2 FlagCol.gun_timing_flag = 0) ∧
      (radialCol ∉ df.cols → p.2 FlagCol.repeatability_flag = 0) ∧
      (df.cols.filter smaColPred = [] → p.2 FlagCol.sma_flag = 0) := by
  constructor
  · unfold validate_data
    rw [validate_sma_len, validate_radial_len, validate_gun_timing_len,
      validate_gun_pressure_len, validate_gun_depth_len, validate_volume_len,
      validate_cos_len, validate_sub_array_len, validate_sti_len]
    simp [initFrame]
  · intro p hp
    refine ⟨fun h => ?_, fun h => ?_, fun h => ?_, fun h => ?_, fun h => ?_,
      fun h => ?_, fun h => ?_, fun h => ?_, fun h => ?_⟩
    · exact mem_map_zero df.rows _ _ (pipeline_sti_zero t df h) p hp
    · exact mem_map_zero df.rows _ _ (pipeline_sub_array_zero t df h) p hp
    · exact mem_map_zero df.rows _ _ (pipeline_cos_zero t df h) p hp
    · exact mem_map_zero df.rows _ _ (pipeline_volume_zero t df h) p hp
    · exact mem_map_zero df.rows _ _ (pipeline_gun_depth_zero t df h) p hp
    · exact mem_map_zero df.rows _ _ (pipeline_gun_pressure_zero t df h) p hp
    · exact mem_map_zero df.rows _ _ (pipeline_gun_timing_zero t df h) p hp
    · exact mem_map_zero df.rows _ _ (pipeline_repeatability_zero t df h) p hp
    · exact mem_map_zero df.rows _ _ (pipeline_sma_zero t df h) p hp

/-- C8: witness for `validate_data_total_missing_columns` on a one-row frame
with only a `shot_point` column: the row survives and every flag is 0. -/
theorem validate_data_total_missing_columns_witness :
    (validate_data exhibitThresholds exhibitBareFrame).rows.length = 1 ∧
    (validate_data exhibitThresholds exhibitBareFrame).rows.all
      (fun p => (p.2 FlagCol.sti_flag == 0) && (p.2 FlagCol.sub_array_sep_flag == 0) &&
        (p.2 FlagCol.cos_sep_flag == 0) && (p.2 FlagCol.volume_flag == 0) &&
        (p.2 FlagCol.gun_depth_flag == 0) && (p.2 FlagCol.gun_pressure_flag == 0) &&
        (p.2 FlagCol.gun_timing_flag == 0) && (p.2 FlagCol.repeatability_flag == 0) &&
        (p.2 FlagCol.sma_flag == 0)) = true := by
  obtain ⟨hlen, hflags⟩ :=
    validate_data_total_missing_columns exhibitThresholds exhibitBareFrame
  refine ⟨by rw [hlen]; rfl, ?_⟩
  rw [List.all_eq_true]
  intro p hp
  obtain ⟨h1, h2, h3, h4, h5, h6, h7, h8, h9⟩ := hflags p hp
  simp [h1 (by decide), h2 (by decide), h3 (by decide), h4 (by decide), h5 (by decide),
    h6 (by decide), h7 (by decide), h8 (by decide), h9 (by decide)]
